import Mathlib

/-!
# A shallow embedding of the `collaborate` real-time canvas backend

This file embeds, in Lean, the synchronization core of the repository:

* the data model of `src/backend/src/types.ts` (zod schemas for spaces,
  canvas items, create/update requests, cursors and SSE events);
* the broadcast hub of `src/backend/src/sse.ts` (`subscribe`,
  `unsubscribe`, `broadcast`);
* the spaces router (the file imported as `./routes/spaces` by
  `src/backend/src/index.ts`): the in-memory `spaces` and `cursors`
  maps, `getOrCreateSpace`, the item id generator, and each route
  handler (get space, create/update/delete item, reset space,
  cursor upsert/remove, open/close event stream).

JavaScript `Map`s are embedded as association lists (first binding
wins on lookup), JS numbers carried by items as `Int` (the code only
stores and compares them), ISO timestamps as opaque `String`s, and
`Date.now()` as a `Nat`.  Every external effect of a handler is an
explicit input: the wall clock, the outcome of each Prisma call
(`.catch`-guarded calls are modelled by a flag whose failure the
handler ignores, exactly as the source swallows the rejection; the
un-guarded `findUnique` calls by an `Except` the handler matches on),
and, for the SSE hub, which subscriber sinks throw on `enqueue`.
-/

/-! ## Data model (src/backend/src/types.ts) -/

/-- `canvasItemTypeSchema`: the nine item variants. -/
inductive CanvasItemType where
  | sticky | text | shape | image | emoji | drawing | link | table | connector
deriving Repr, DecidableEq

/-- `shapeTypeSchema`: shape variants (including flowchart shapes). -/
inductive ShapeType where
  | rectangle | circle | triangle | diamond | star | hexagon | arrow | line
  | terminator | process | decision | data | document
deriving Repr, DecidableEq

/-- `pointSchema`: a point of a freehand drawing. -/
structure Point where
  x : Int
  y : Int
deriving Repr, DecidableEq

/-- `tableCellSchema`: one cell of a table item. -/
structure TableCell where
  value : String
deriving Repr, DecidableEq

/-- `connectorEndpointSchema`: an endpoint of a connector item. -/
structure ConnectorEndpoint where
  itemId : Option String
  x : Int
  y : Int
deriving Repr, DecidableEq

/-- The `connectorType` enum of the item schemas. -/
inductive ConnectorType where
  | straight | elbow | curved
deriving Repr, DecidableEq

/-- `canvasItemSchema`: one placed object of a canvas. -/
structure CanvasItem where
  id : String
  type : CanvasItemType
  x : Int
  y : Int
  width : Option Int
  height : Option Int
  content : Option String
  color : Option String
  url : Option String
  shapeType : Option ShapeType
  fontSize : Option Int
  zIndex : Int
  points : Option (List Point)
  strokeColor : Option String
  strokeWidth : Option Int
  createdBy : Option String
  tableData : Option (List (List TableCell))
  rows : Option Int
  cols : Option Int
  connectorType : Option ConnectorType
  startPoint : Option ConnectorEndpoint
  endPoint : Option ConnectorEndpoint
  arrowStart : Option Bool
  arrowEnd : Option Bool
  createdAt : String
  updatedAt : String
deriving Repr, DecidableEq

/-- `spaceSchema`: a named canvas and its items. -/
structure Space where
  slug : String
  items : List CanvasItem
  createdAt : String
  updatedAt : String
deriving Repr, DecidableEq

/-- `createItemRequestSchema`: the body of `POST /:slug/items`.  Optional
fields default to `none` (absent in the JSON body). -/
structure CreateItemRequest where
  id : Option String := none
  type : CanvasItemType
  x : Int
  y : Int
  width : Option Int := none
  height : Option Int := none
  content : Option String := none
  color : Option String := none
  url : Option String := none
  shapeType : Option ShapeType := none
  fontSize : Option Int := none
  points : Option (List Point) := none
  strokeColor : Option String := none
  strokeWidth : Option Int := none
  createdBy : Option String := none
  tableData : Option (List (List TableCell)) := none
  rows : Option Int := none
  cols : Option Int := none
  connectorType : Option ConnectorType := none
  startPoint : Option ConnectorEndpoint := none
  endPoint : Option ConnectorEndpoint := none
  arrowStart : Option Bool := none
  arrowEnd : Option Bool := none
deriving Repr, DecidableEq

/-- `updateItemRequestSchema`: the body of `PATCH /:slug/items/:itemId`.
Note it carries no `id`, `type`, `createdBy`, `fontSize`, `createdAt` or
`updatedAt` field. -/
structure UpdateItemRequest where
  x : Option Int := none
  y : Option Int := none
  width : Option Int := none
  height : Option Int := none
  content : Option String := none
  color : Option String := none
  url : Option String := none
  zIndex : Option Int := none
  shapeType : Option ShapeType := none
  points : Option (List Point) := none
  strokeColor : Option String := none
  strokeWidth : Option Int := none
  tableData : Option (List (List TableCell)) := none
  rows : Option Int := none
  cols : Option Int := none
  connectorType : Option ConnectorType := none
  startPoint : Option ConnectorEndpoint := none
  endPoint : Option ConnectorEndpoint := none
  arrowStart : Option Bool := none
  arrowEnd : Option Bool := none
deriving Repr, DecidableEq

/-- `cursorPositionSchema` (also the shape of `cursorUpdateSchema`):
an ephemeral presence cursor. -/
structure CursorPosition where
  clientId : String
  x : Int
  y : Int
  name : Option String := none
  color : Option String := none
deriving Repr, DecidableEq

/-- `SSEEvent` as the handlers actually build it: a tagged union with
exactly one payload field populated per tag. -/
inductive SSEEvent where
  | itemCreated (item : CanvasItem)
  | itemUpdated (item : CanvasItem)
  | itemDeleted (itemId : String)
  | spaceReset
  | cursorJoin (cursor : CursorPosition)
  | cursorMove (cursor : CursorPosition)
  | cursorLeave (cursor : CursorPosition)
deriving Repr, DecidableEq

/-- `slugSchema`: 3 to 50 characters drawn from `[a-z0-9-]`. -/
def isSlugChar (c : Char) : Bool :=
  (('a' ≤ c && c ≤ 'z') || ('0' ≤ c && c ≤ '9') || c = '-')

/-- A slug accepted by `slugSchema`. -/
def validSlug (s : String) : Bool :=
  3 ≤ s.length && s.length ≤ 50 && s.data.all isSlugChar

/-! ## Association lists standing for JavaScript `Map`s

Lookup returns the first binding; `aset` replaces the first binding in
place (a JS `Map.set` keeps insertion order) or appends a fresh one;
`adelete` removes the key. -/

/-- `Map.get`. -/
def alookup {α : Type} : List (String × α) → String → Option α
  | [], _ => none
  | (k, v) :: rest, key => if k = key then some v else alookup rest key

/-- `Map.set`. -/
def aset {α : Type} : List (String × α) → String → α → List (String × α)
  | [], key, v => [(key, v)]
  | (k, w) :: rest, key, v =>
      if k = key then (key, v) :: rest else (k, w) :: aset rest key v

/-- `Map.delete`. -/
def adelete {α : Type} (m : List (String × α)) (key : String) :
    List (String × α) :=
  m.filter (fun kv => kv.1 ≠ key)

/-! ## Identifier generators

The router keeps `let itemIdCounter = 0` and mints
`item-${++itemIdCounter}-${Date.now()}`; the hub keeps
`clientIdCounter` and mints `client-${++clientIdCounter}-${Date.now()}`.
The pre-incremented counter is the first argument, `Date.now()` the
second. -/

/-- `generateItemId` with the incremented counter and clock explicit. -/
def generateItemId (counter nowMs : Nat) : String :=
  "item-" ++ Nat.repr counter ++ "-" ++ Nat.repr nowMs

/-- `generateClientId` with the incremented counter and clock explicit. -/
def generateClientId (counter nowMs : Nat) : String :=
  "client-" ++ Nat.repr counter ++ "-" ++ Nat.repr nowMs

/-! ## Broadcast hub (src/backend/src/sse.ts)

`clients` maps a slug to the set of subscribed clients, in insertion
order; each client is represented by its generated id (its controller's
behavior on this publish is the external input `fails`). -/

/-- The hub's registry: slug to subscribers in insertion order. -/
abbrev ClientsMap : Type := List (String × List String)

/-- The `if (excludeClientId && client.id === excludeClientId) continue`
guard: an empty exclusion string is falsy in JS and excludes nobody. -/
def isExcludedClient (excl : Option String) (cid : String) : Bool :=
  match excl with
  | none => false
  | some e => (e ≠ "" : Bool) && cid = e

/-- What one `broadcast` call produced: the updated registry, the ids
whose `enqueue` was attempted (in iteration order), the ids it
succeeded for (each received the one serialized frame of the event),
and the dead ids collected and evicted. -/
structure BroadcastResult where
  clients : ClientsMap
  attempted : List String
  delivered : List String
  dead : List String
deriving Repr

/-- `broadcast(slug, event, excludeClientId?)`: look up the space's
subscribers, return early when absent or empty, enqueue the frame to
every non-excluded subscriber, collect those whose sink throws as dead,
delete them from the set, and drop the slug when the set became empty.
`fails cid = true` means that subscriber's `controller.enqueue` throws. -/
def broadcast (m : ClientsMap) (slug : String) (excl : Option String)
    (fails : String → Bool) : BroadcastResult :=
  match alookup m slug with
  | none => ⟨m, [], [], []⟩
  | some cs =>
    if cs.isEmpty then ⟨m, [], [], []⟩
    else
      let attempted := cs.filter (fun c => !isExcludedClient excl c)
      let delivered := attempted.filter (fun c => !fails c)
      let dead := attempted.filter (fun c => fails c)
      let remaining := cs.filter (fun c => !(!isExcludedClient excl c && fails c))
      let m' := if remaining.isEmpty then adelete m slug else aset m slug remaining
      ⟨m', attempted, delivered, dead⟩

/-- `subscribe(slug, controller)`: mint a client id, add it to the
space's set (creating the set when absent), return the id. -/
def subscribe (m : ClientsMap) (slug : String) (cid : String) : ClientsMap :=
  aset m slug ((alookup m slug).getD [] ++ [cid])

/-- `unsubscribe(slug, clientId)`: remove the first client with that id
(the loop breaks after one hit), then drop the slug if the set became
empty. -/
def eraseFirstClient : List String → String → List String
  | [], _ => []
  | c :: rest, cid => if c = cid then rest else c :: eraseFirstClient rest cid

/-- `unsubscribe`, as a function of the registry. -/
def unsubscribe (m : ClientsMap) (slug : String) (cid : String) : ClientsMap :=
  match alookup m slug with
  | none => m
  | some cs =>
    let cs' := eraseFirstClient cs cid
    if cs'.isEmpty then adelete m slug else aset m slug cs'

/-! ## Server state and per-request environment -/

/-- The process-wide mutable state of the spaces router and the hub:
the `spaces` map, the per-space `cursors` maps, both id counters, and
the hub's `clients` registry. -/
structure ServerState where
  spaces : List (String × Space)
  cursors : List (String × List (String × CursorPosition))
  itemIdCounter : Nat
  clients : ClientsMap
  clientIdCounter : Nat
deriving Repr

/-- The row `prisma.space.findUnique` returns (the columns the router
reads: `id`, `blocked`, `blockedReason`). -/
structure DbSpaceRec where
  id : String
  blocked : Bool
  blockedReason : Option String
deriving Repr, DecidableEq

/-- The external inputs of one request: the wall clock, the outcome of
each Prisma call the handler may make, and which subscriber sinks throw
during the broadcast.  The calls the source guards with `.catch` are
`Bool` flags (`true` = the promise rejected; the handler swallows it
either way); the un-guarded `prisma.space.findUnique` calls are an
`Except`, whose `.error` makes the handler itself reject. -/
structure RequestEnv where
  now : String
  nowMs : Nat
  findUnique : Except Unit (Option DbSpaceRec)
  spaceUpsertFails : Bool := false
  itemCreateFails : Bool := false
  itemDeleteFails : Bool := false
  deleteManyFails : Bool := false
  sinkFails : String → Bool := fun _ => false

/-- What a handler answers. -/
inductive Response where
  | okSpace (space : Space)
  | okCreated (item : CanvasItem)
  | okItem (item : CanvasItem)
  | okSuccess
  | okCursors (cursors : List CursorPosition)
  | okStream (clientId : String)
  | errNotFound (message code : String)
  | errForbidden (message code : String) (reason : Option String)
  | errServer
deriving Repr, DecidableEq

/-- A handler's full observable outcome: the response, the state after,
the events handed to `broadcast` and the per-subscriber deliveries that
succeeded. -/
structure HandlerOut where
  resp : Response
  state : ServerState
  published : List SSEEvent
  delivered : List (String × SSEEvent)
deriving Repr

/-- Publish one event through the hub and fold the new registry into
the state. -/
def publishEvent (s : ServerState) (slug : String) (ev : SSEEvent)
    (fails : String → Bool) : ServerState × List (String × SSEEvent) :=
  let r := broadcast s.clients slug none fails
  ({ s with clients := r.clients }, r.delivered.map (fun cid => (cid, ev)))

/-! ## The spaces router -/

/-- `getOrCreateSpace(slug)`: create the in-memory record lazily on the
first reference.  (The accompanying `prisma.space.upsert` is
`.catch`-guarded and touches no in-memory state.) -/
def getOrCreateSpace (spaces : List (String × Space)) (slug now : String) :
    Space × List (String × Space) :=
  match alookup spaces slug with
  | some sp => (sp, spaces)
  | none =>
    let sp : Space := { slug := slug, items := [], createdAt := now, updatedAt := now }
    (sp, aset spaces slug sp)

/-- The `CanvasItem` literal the create handler builds from the body
(`zIndex` hard-coded to `0`, both timestamps set to `now`). -/
def buildItem (itemId : String) (body : CreateItemRequest) (now : String) :
    CanvasItem :=
  { id := itemId
    type := body.type
    x := body.x
    y := body.y
    width := body.width
    height := body.height
    content := body.content
    color := body.color
    url := body.url
    shapeType := body.shapeType
    fontSize := body.fontSize
    zIndex := 0
    points := body.points
    strokeColor := body.strokeColor
    strokeWidth := body.strokeWidth
    createdBy := body.createdBy
    tableData := body.tableData
    rows := body.rows
    cols := body.cols
    connectorType := body.connectorType
    startPoint := body.startPoint
    endPoint := body.endPoint
    arrowStart := body.arrowStart
    arrowEnd := body.arrowEnd
    createdAt := now
    updatedAt := now }

/-- `const itemId = body.id || generateItemId()`: a truthy (non-empty)
client-supplied id is used verbatim and the counter is untouched;
otherwise a fresh id is minted and the counter incremented.  Returns
the id together with the new counter. -/
def chooseItemId (bodyId : Option String) (counter nowMs : Nat) :
    String × Nat :=
  match bodyId with
  | some i => if i = "" then (generateItemId (counter + 1) nowMs, counter + 1)
              else (i, counter)
  | none => (generateItemId (counter + 1) nowMs, counter + 1)

/-- `POST /:slug/items`: get-or-create the space, build the item, push
it, bump `space.updatedAt`, then `await prisma.space.findUnique`
(un-guarded: its failure rejects the handler after the in-memory
mutation and before the broadcast), then the `.catch`-guarded
`prisma.canvasItem.create`, then broadcast `item:created` and answer
201 with the item. -/
def createItemHandler (s : ServerState) (slug : String)
    (body : CreateItemRequest) (env : RequestEnv) : HandlerOut :=
  let (space, spaces1) := getOrCreateSpace s.spaces slug env.now
  let (itemId, counter') := chooseItemId body.id s.itemIdCounter env.nowMs
  let item := buildItem itemId body env.now
  let space' := { space with items := space.items ++ [item], updatedAt := env.now }
  let s1 := { s with spaces := aset spaces1 slug space', itemIdCounter := counter' }
  match env.findUnique with
  | .error _ => ⟨.errServer, s1, [], []⟩
  | .ok _ =>
    let (s2, del) := publishEvent s1 slug (.itemCreated item) env.sinkFails
    ⟨.okCreated item, s2, [.itemCreated item], del⟩

/-- The `// Apply updates` block of the patch handler: merge exactly
the fields present in the patch into the item and stamp `updatedAt`. -/
def applyUpdates (item : CanvasItem) (u : UpdateItemRequest) (now : String) :
    CanvasItem :=
  { item with
    x := u.x.getD item.x
    y := u.y.getD item.y
    width := (u.width.map some).getD item.width
    height := (u.height.map some).getD item.height
    content := (u.content.map some).getD item.content
    color := (u.color.map some).getD item.color
    url := (u.url.map some).getD item.url
    zIndex := u.zIndex.getD item.zIndex
    shapeType := (u.shapeType.map some).getD item.shapeType
    points := (u.points.map some).getD item.points
    strokeColor := (u.strokeColor.map some).getD item.strokeColor
    strokeWidth := (u.strokeWidth.map some).getD item.strokeWidth
    tableData := (u.tableData.map some).getD item.tableData
    rows := (u.rows.map some).getD item.rows
    cols := (u.cols.map some).getD item.cols
    connectorType := (u.connectorType.map some).getD item.connectorType
    startPoint := (u.startPoint.map some).getD item.startPoint
    endPoint := (u.endPoint.map some).getD item.endPoint
    arrowStart := (u.arrowStart.map some).getD item.arrowStart
    arrowEnd := (u.arrowEnd.map some).getD item.arrowEnd
    updatedAt := now }

/-- `items.findIndex(item => item.id === itemId)` followed by the
in-place field mutation: replace the first item with the given id by
its merged version; `none` when no item matches. -/
def replaceFirstItem (items : List CanvasItem) (itemId : String)
    (u : UpdateItemRequest) (now : String) :
    Option (CanvasItem × List CanvasItem) :=
  match items with
  | [] => none
  | it :: rest =>
    if it.id = itemId then
      some (applyUpdates it u now, applyUpdates it u now :: rest)
    else
      (replaceFirstItem rest itemId u now).map
        (fun p => (p.1, it :: p.2))

/-- `items.findIndex` followed by `items.splice(itemIndex, 1)`: drop the
first item with the given id; `none` when no item matches. -/
def removeFirstItem (items : List CanvasItem) (itemId : String) :
    Option (List CanvasItem) :=
  match items with
  | [] => none
  | it :: rest =>
    if it.id = itemId then some rest
    else (removeFirstItem rest itemId).map (fun l => it :: l)

/-- `PATCH /:slug/items/:itemId`: 404 when the space or the item is
missing, otherwise merge the patch, bump both `updatedAt`s, broadcast
`item:updated` and answer with the item.  This handler makes no Prisma
call. -/
def updateItemHandler (s : ServerState) (slug itemId : String)
    (u : UpdateItemRequest) (env : RequestEnv) : HandlerOut :=
  match alookup s.spaces slug with
  | none => ⟨.errNotFound "Space not found" "SPACE_NOT_FOUND", s, [], []⟩
  | some space =>
    match replaceFirstItem space.items itemId u env.now with
    | none => ⟨.errNotFound "Item not found" "ITEM_NOT_FOUND", s, [], []⟩
    | some (item, items') =>
      let space' := { space with items := items', updatedAt := env.now }
      let s1 := { s with spaces := aset s.spaces slug space' }
      let (s2, del) := publishEvent s1 slug (.itemUpdated item) env.sinkFails
      ⟨.okItem item, s2, [.itemUpdated item], del⟩

/-- `DELETE /:slug/items/:itemId`: 404 when the space or the item is
missing, otherwise splice the item out, bump `space.updatedAt`, run the
`.catch(() => \x7b\x7d)`-guarded `prisma.canvasItem.delete`, broadcast
`item:deleted` and answer success. -/
def deleteItemHandler (s : ServerState) (slug itemId : String)
    (env : RequestEnv) : HandlerOut :=
  match alookup s.spaces slug with
  | none => ⟨.errNotFound "Space not found" "SPACE_NOT_FOUND", s, [], []⟩
  | some space =>
    match removeFirstItem space.items itemId with
    | none => ⟨.errNotFound "Item not found" "ITEM_NOT_FOUND", s, [], []⟩
    | some items' =>
      let space' := { space with items := items', updatedAt := env.now }
      let s1 := { s with spaces := aset s.spaces slug space' }
      let (s2, del) := publishEvent s1 slug (.itemDeleted itemId) env.sinkFails
      ⟨.okSuccess, s2, [.itemDeleted itemId], del⟩

/-- `DELETE /:slug`: clear the item collection and bump `updatedAt`
when the space exists in memory (the record itself is kept), then
`await prisma.space.findUnique` (un-guarded: its failure rejects the
handler before the broadcast), then the guarded `deleteMany`, then
broadcast `space:reset` and answer success. -/
def resetSpaceHandler (s : ServerState) (slug : String)
    (env : RequestEnv) : HandlerOut :=
  let s1 :=
    match alookup s.spaces slug with
    | none => s
    | some space =>
      let space' := { space with items := [], updatedAt := env.now }
      { s with spaces := aset s.spaces slug space' }
  match env.findUnique with
  | .error _ => ⟨.errServer, s1, [], []⟩
  | .ok _ =>
    let (s2, del) := publishEvent s1 slug .spaceReset env.sinkFails
    ⟨.okSuccess, s2, [.spaceReset], del⟩

/-- The presence upsert at the heart of `POST /:slug/cursors`: insert
or overwrite the cursor keyed by `clientId`; the returned `Bool` is
`isNewCursor`, true iff no prior entry existed for that client. -/
def upsertCursor (spaceCursors : List (String × CursorPosition))
    (pos : CursorPosition) : Bool × List (String × CursorPosition) :=
  ((alookup spaceCursors pos.clientId).isNone,
    aset spaceCursors pos.clientId pos)

/-- `POST /:slug/cursors`: ensure the space exists, upsert the cursor,
and broadcast `cursor:join` on a fresh client id, `cursor:move`
otherwise. -/
def cursorUpsertHandler (s : ServerState) (slug : String)
    (data : CursorPosition) (env : RequestEnv) : HandlerOut :=
  let (_, spaces1) := getOrCreateSpace s.spaces slug env.now
  let spaceCursors := (alookup s.cursors slug).getD []
  let (isNew, spaceCursors') := upsertCursor spaceCursors data
  let s1 := { s with spaces := spaces1,
                     cursors := aset s.cursors slug spaceCursors' }
  let ev : SSEEvent := if isNew then .cursorJoin data else .cursorMove data
  let (s2, del) := publishEvent s1 slug ev env.sinkFails
  ⟨.okSuccess, s2, [ev], del⟩

/-- `DELETE /:slug/cursors/:clientId`: when the space has a cursor map,
delete the entry, broadcast `cursor:leave` with the last known position
(or a zero position), and drop the map when it became empty; when the
space has no cursor map, do nothing at all. -/
def cursorRemoveHandler (s : ServerState) (slug clientId : String)
    (env : RequestEnv) : HandlerOut :=
  match alookup s.cursors slug with
  | none => ⟨.okSuccess, s, [], []⟩
  | some spaceCursors =>
    let cursor := alookup spaceCursors clientId
    let m' := adelete spaceCursors clientId
    let ev : SSEEvent :=
      .cursorLeave (cursor.getD { clientId := clientId, x := 0, y := 0 })
    let cursors' := if m'.isEmpty then adelete s.cursors slug
                    else aset s.cursors slug m'
    let s1 := { s with cursors := cursors' }
    let (s2, del) := publishEvent s1 slug ev env.sinkFails
    ⟨.okSuccess, s2, [ev], del⟩

/-- `GET /:slug/cursors`: list the space's cursors. -/
def listCursorsHandler (s : ServerState) (slug : String) : HandlerOut :=
  let cursorList := ((alookup s.cursors slug).getD []).map Prod.snd
  ⟨.okCursors cursorList, s, [], []⟩

/-- `GET /:slug` (get or create a space): `await prisma.space.findUnique`
(un-guarded), answer 403 with the stored reason when the row says
blocked, otherwise get-or-create the in-memory space and answer it.
This is the only route that consults `blocked`. -/
def getSpaceHandler (s : ServerState) (slug : String)
    (env : RequestEnv) : HandlerOut :=
  match env.findUnique with
  | .error _ => ⟨.errServer, s, [], []⟩
  | .ok dbSpace =>
    match dbSpace with
    | some rec' =>
      if rec'.blocked then
        ⟨.errForbidden "This space has been blocked" "SPACE_BLOCKED"
            rec'.blockedReason, s, [], []⟩
      else
        let (sp, spaces') := getOrCreateSpace s.spaces slug env.now
        ⟨.okSpace sp, { s with spaces := spaces' }, [], []⟩
    | none =>
      let (sp, spaces') := getOrCreateSpace s.spaces slug env.now
      ⟨.okSpace sp, { s with spaces := spaces' }, [], []⟩

/-- `GET /:slug/events`: ensure the space exists, mint a subscriber id,
register it with the hub, and push the `connected` handshake frame. -/
def openStreamHandler (s : ServerState) (slug : String)
    (env : RequestEnv) : HandlerOut :=
  let (_, spaces1) := getOrCreateSpace s.spaces slug env.now
  let cid := generateClientId (s.clientIdCounter + 1) env.nowMs
  let s1 := { s with spaces := spaces1,
                     clients := subscribe s.clients slug cid,
                     clientIdCounter := s.clientIdCounter + 1 }
  ⟨.okStream cid, s1, [], []⟩

/-- The stream's `cancel` callback: unsubscribe from the hub. -/
def closeStreamHandler (s : ServerState) (slug clientId : String) :
    HandlerOut :=
  ⟨.okSuccess, { s with clients := unsubscribe s.clients slug clientId }, [], []⟩

/-! ## Requests and traces -/

/-- One intent arriving at the gateway, carrying its external
environment (clock, Prisma outcomes, sink behavior). -/
inductive Request where
  | getSpace (slug : String) (env : RequestEnv)
  | createItem (slug : String) (body : CreateItemRequest) (env : RequestEnv)
  | updateItem (slug itemId : String) (u : UpdateItemRequest) (env : RequestEnv)
  | deleteItem (slug itemId : String) (env : RequestEnv)
  | resetSpace (slug : String) (env : RequestEnv)
  | cursorUpsert (slug : String) (data : CursorPosition) (env : RequestEnv)
  | cursorRemove (slug clientId : String) (env : RequestEnv)
  | listCursors (slug : String)
  | openStream (slug : String) (env : RequestEnv)
  | closeStream (slug clientId : String)

/-- Dispatch one request to its handler. -/
def stepRequest (s : ServerState) : Request → HandlerOut
  | .getSpace slug env => getSpaceHandler s slug env
  | .createItem slug body env => createItemHandler s slug body env
  | .updateItem slug itemId u env => updateItemHandler s slug itemId u env
  | .deleteItem slug itemId env => deleteItemHandler s slug itemId env
  | .resetSpace slug env => resetSpaceHandler s slug env
  | .cursorUpsert slug data env => cursorUpsertHandler s slug data env
  | .cursorRemove slug clientId env => cursorRemoveHandler s slug clientId env
  | .listCursors slug => listCursorsHandler s slug
  | .openStream slug env => openStreamHandler s slug env
  | .closeStream slug clientId => closeStreamHandler s slug clientId

/-- Run a trace of requests, collecting every event handed to the hub. -/
def runTrace : ServerState → List Request → ServerState × List SSEEvent
  | s, [] => (s, [])
  | s, r :: rest =>
    let out := stepRequest s r
    let (sEnd, evs) := runTrace out.state rest
    (sEnd, out.published ++ evs)

/-- The state of a freshly started process: empty maps, both counters
at zero. -/
def initialState : ServerState :=
  { spaces := [], cursors := [], itemIdCounter := 0, clients := [],
    clientIdCounter := 0 }

/-- A request whose create body carries no client-supplied id (all
other requests trivially qualify). -/
def omitsClientId : Request → Bool
  | .createItem _ body _ => body.id.isNone
  | _ => true

/-- The ids announced by `item:created` events, in order. -/
def createdIds (evs : List SSEEvent) : List String :=
  evs.filterMap (fun e => match e with
    | .itemCreated item => some item.id
    | _ => none)

/-! ## Invariants for the id-freshness analysis -/

/-- Every item id of the space was minted by `generateItemId` with a
counter between 1 and the current counter, and ids are pairwise
distinct. -/
def spaceIdsOk (counter : Nat) (sp : Space) : Prop :=
  (∀ it ∈ sp.items, ∃ k t, 1 ≤ k ∧ k ≤ counter ∧ it.id = generateItemId k t) ∧
  sp.items.Pairwise (fun a b => a.id ≠ b.id)

/-- `spaceIdsOk` for every space of the state. -/
def stateIdsOk (s : ServerState) : Prop :=
  ∀ slug sp, alookup s.spaces slug = some sp → spaceIdsOk s.itemIdCounter sp

/-- A run of minted ids whose counters climb strictly inside `(a, b]`:
the shape of the `item:created` ids a client-id-free trace announces. -/
inductive MintedChain : Nat → Nat → List String → Prop
  | nil (a b : Nat) (h : a ≤ b) : MintedChain a b []
  | cons (a b k t : Nat) (ids : List String) (h1 : a < k)
      (h2 : MintedChain k b ids) :
      MintedChain a b (generateItemId k t :: ids)

/-- Reading the decimal digits of a rendered number back (the inverse
used to tell two minted ids apart). -/
def digitsVal (l : List Char) : Nat :=
  l.foldl (fun a c => 10 * a + (c.toNat - 48)) 0

/-- A nonempty run of characters with code points between 48 and 57
(the decimal digits) whose decimal reading is `m`: the shape of what
`Nat.toDigitsCore` at base 10 puts in front of its accumulator. -/
def DigitRun (run : List Char) (m : Nat) : Prop :=
  digitsVal run = m ∧ (∀ c ∈ run, 48 ≤ c.toNat ∧ c.toNat ≤ 57) ∧ run ≠ []

/-! ## Concrete example values (used by witnesses and counterexamples) -/

/-- A patch whose only present field is `x := 5`. -/
def xOnlyPatch : UpdateItemRequest := { x := some 5 }

/-- A concrete sticky item living in the example state. -/
def exItem : CanvasItem :=
  { id := "i1", type := .sticky, x := 100, y := 100, width := some 200
    height := some 200, content := some "hello", color := some "#ffd700"
    url := none, shapeType := none, fontSize := some 16, zIndex := 3
    points := none, strokeColor := none, strokeWidth := none
    createdBy := some "alice", tableData := none, rows := none, cols := none
    connectorType := none, startPoint := none, endPoint := none
    arrowStart := none, arrowEnd := none
    createdAt := "2024-01-01T00:00:00Z", updatedAt := "2024-01-02T00:00:00Z" }

/-- A concrete space holding `exItem`. -/
def exSpace : Space :=
  { slug := "abc", items := [exItem], createdAt := "2024-01-01T00:00:00Z"
    updatedAt := "2024-01-02T00:00:00Z" }

/-- A concrete server state: one space, one cursor map, two subscribers. -/
def exState : ServerState :=
  { spaces := [("abc", exSpace)]
    cursors := [("abc", [("tab1", { clientId := "tab1", x := 4, y := 5 })])]
    itemIdCounter := 3
    clients := [("abc", ["client-1-50", "client-2-60"])]
    clientIdCounter := 2 }

/-- A benign environment: the Prisma lookup answers "no row", nothing
fails. -/
def okEnv : RequestEnv :=
  { now := "2025-06-01T00:00:00Z", nowMs := 7, findUnique := .ok none }

/-- An environment whose Prisma lookup answers a blocked row. -/
def blockedEnv : RequestEnv :=
  { now := "2025-06-01T00:00:00Z", nowMs := 7
    findUnique :=
      .ok (some { id := "db1", blocked := true, blockedReason := some "spam" }) }

/-- An environment where every `.catch`-guarded mirror write rejects
(and the un-guarded lookup still answers). -/
def allWritesFailEnv : RequestEnv :=
  { now := "2025-06-01T00:00:00Z", nowMs := 7, findUnique := .ok none
    spaceUpsertFails := true, itemCreateFails := true
    itemDeleteFails := true, deleteManyFails := true }

/-- An environment whose un-guarded `findUnique` lookup rejects. -/
def lookupThrowsEnv : RequestEnv :=
  { now := "2025-06-01T00:00:00Z", nowMs := 7, findUnique := .error () }

/-- A create body with no client-supplied id. -/
def exBody : CreateItemRequest := { type := .sticky, x := 100, y := 100 }

/-- A create body carrying the client-supplied id `"aaa"`. -/
def dupBody : CreateItemRequest :=
  { id := some "aaa", type := .sticky, x := 0, y := 0 }

/-! # Theorems -/

/-! ## Association-list lemmas -/

theorem alookup_aset_self {α : Type} (m : List (String × α)) (k : String)
    (v : α) : alookup (aset m k v) k = some v := by
  induction m with
  | nil => simp [aset, alookup]
  | cons kv rest ih =>
    obtain ⟨k', v'⟩ := kv
    by_cases h : k' = k
    · subst h; simp [aset, alookup]
    · simp [aset, alookup, h, ih]

theorem alookup_aset_ne {α : Type} (m : List (String × α)) (k k' : String)
    (v : α) (h : k' ≠ k) : alookup (aset m k v) k' = alookup m k' := by
  induction m with
  | nil => simp [aset, alookup, Ne.symm h]
  | cons kv rest ih =>
    obtain ⟨k0, v0⟩ := kv
    by_cases hk : k0 = k
    · subst hk
      simp [aset, alookup, Ne.symm h]
    · simp only [aset, if_neg hk, alookup]
      by_cases hk' : k0 = k'
      · simp [hk']
      · simp [hk', ih]

/-! ## Decimal renderings: `Nat.repr` digit facts and injectivity -/

theorem digitChar_spec {m : Nat} (h : m < 10) :
    48 ≤ (Nat.digitChar m).toNat ∧ (Nat.digitChar m).toNat ≤ 57 ∧
      (Nat.digitChar m).toNat - 48 = m := by
  interval_cases m <;> decide

theorem digitsVal_append_one (l : List Char) (c : Char) :
    digitsVal (l ++ [c]) = 10 * digitsVal l + (c.toNat - 48) := by
  simp [digitsVal, List.foldl_append]

theorem digitRun_single {m : Nat} (hm : m < 10) :
    DigitRun [Nat.digitChar m] m := by
  obtain ⟨ha, hb, hc⟩ := digitChar_spec hm
  refine ⟨?_, ?_, by simp⟩
  · simp only [digitsVal, List.foldl_cons, List.foldl_nil]
    omega
  · intro c hmem
    rw [List.mem_singleton] at hmem
    subst hmem
    exact ⟨ha, hb⟩

theorem digitRun_snoc {run : List Char} {q r : Nat} (hq : DigitRun run q)
    (hr : r < 10) : DigitRun (run ++ [Nat.digitChar r]) (10 * q + r) := by
  obtain ⟨hval, hchars, hne⟩ := hq
  obtain ⟨ha, hb, hc⟩ := digitChar_spec hr
  refine ⟨?_, ?_, by simp⟩
  · rw [digitsVal_append_one, hval]
    omega
  · intro c hmem
    rw [List.mem_append, List.mem_singleton] at hmem
    cases hmem with
    | inl h => exact hchars c h
    | inr h => subst h; exact ⟨ha, hb⟩

theorem toDigitsCore_run (f : Nat) :
    ∀ m tl, m < f → ∃ run, DigitRun run m ∧
      Nat.toDigitsCore 10 f m tl = run ++ tl := by
  induction f with
  | zero =>
    intro m _ hlt
    exact absurd hlt m.not_lt_zero
  | succ f ih =>
    intro m tl hlt
    rcases Nat.eq_zero_or_pos (m / 10) with hdiv | hdiv
    · have hsm : m % 10 = m := Nat.mod_eq_of_lt (by omega)
      refine ⟨[Nat.digitChar (m % 10)], ?_, by simp [Nat.toDigitsCore, hdiv]⟩
      rw [hsm]
      exact digitRun_single (by omega)
    · have hnz : ¬ m / 10 = 0 := by omega
      obtain ⟨run, hrun, hpre⟩ :=
        ih (m / 10) (Nat.digitChar (m % 10) :: tl) (by omega)
      refine ⟨run ++ [Nat.digitChar (m % 10)], ?_, ?_⟩
      · have := digitRun_snoc hrun (Nat.mod_lt m (by omega))
        rwa [Nat.div_add_mod m 10] at this
      · have hstep : Nat.toDigitsCore 10 (f + 1) m tl =
            Nat.toDigitsCore 10 f (m / 10) (Nat.digitChar (m % 10) :: tl) := by
          simp [Nat.toDigitsCore, hnz]
        rw [hstep, hpre]
        simp

theorem natRepr_spec (n : Nat) :
    (Nat.repr n).data ≠ [] ∧
    (∀ c ∈ (Nat.repr n).data, 48 ≤ c.toNat ∧ c.toNat ≤ 57) ∧
    digitsVal (Nat.repr n).data = n := by
  obtain ⟨run, ⟨hval, hchars, hne⟩, hpre⟩ :=
    toDigitsCore_run (n + 1) n [] (Nat.lt_succ_self n)
  have hdata : (Nat.repr n).data = run := by
    simp [Nat.repr, Nat.toDigits, List.asString] at hpre ⊢
    simpa using hpre
  rw [hdata]
  exact ⟨hne, hchars, hval⟩

theorem natRepr_data_inj {m n : Nat}
    (h : (Nat.repr m).data = (Nat.repr n).data) : m = n := by
  have hm := (natRepr_spec m).2.2
  have hn := (natRepr_spec n).2.2
  rw [h] at hm
  omega

/-- Splitting two digit-run-then-separator concatenations: the runs and
the tails agree. -/
theorem append_sep_inj (s1 : List Char) :
    ∀ (s2 t1 t2 : List Char), (∀ c ∈ s1, c ≠ '-') → (∀ c ∈ s2, c ≠ '-') →
    s1 ++ '-' :: t1 = s2 ++ '-' :: t2 → s1 = s2 ∧ t1 = t2 := by
  induction s1 with
  | nil =>
    intro s2 t1 t2 _ h2 h
    cases s2 with
    | nil => simpa using h
    | cons c cs =>
      simp only [List.nil_append, List.cons_append, List.cons.injEq] at h
      exact absurd h.1.symm (h2 c (List.mem_cons_self c cs))
  | cons c cs ih =>
    intro s2 t1 t2 h1 h2 h
    cases s2 with
    | nil =>
      simp only [List.nil_append, List.cons_append, List.cons.injEq] at h
      exact absurd h.1 (h1 c (List.mem_cons_self c cs))
    | cons d ds =>
      simp only [List.cons_append, List.cons.injEq] at h
      obtain ⟨rfl, h⟩ := h
      obtain ⟨hs, ht⟩ := ih ds t1 t2
        (fun x hx => h1 x (List.mem_cons_of_mem c hx))
        (fun x hx => h2 x (List.mem_cons_of_mem c hx)) h
      exact ⟨by rw [hs], ht⟩

theorem repr_no_dash (n : Nat) : ∀ c ∈ (Nat.repr n).data, c ≠ '-' := by
  intro c hc heq
  have := ((natRepr_spec n).2.1 c hc).1
  subst heq
  simp at this

/-- Two minted item ids with different counters differ, whatever the
two clock readings were: the counter is recoverable from the id. -/
theorem generateItemId_inj {k t k' t' : Nat}
    (h : generateItemId k t = generateItemId k' t') : k = k' := by
  have hdata : ('i' :: 't' :: 'e' :: 'm' :: '-' ::
        ((Nat.repr k).data ++ '-' :: (Nat.repr t).data) : List Char) =
      'i' :: 't' :: 'e' :: 'm' :: '-' ::
        ((Nat.repr k').data ++ '-' :: (Nat.repr t').data) := by
    have := congrArg String.data h
    simpa [generateItemId, String.data_append] using this
  simp only [List.cons.injEq, true_and] at hdata
  exact natRepr_data_inj
    (append_sep_inj _ _ _ _ (repr_no_dash k) (repr_no_dash k') hdata).1

/-! ## Small facts about the hub and the item-list operations -/

@[simp] theorem publishEvent_spaces (s : ServerState) (slug : String)
    (ev : SSEEvent) (f : String → Bool) :
    (publishEvent s slug ev f).1.spaces = s.spaces := rfl

@[simp] theorem publishEvent_cursors (s : ServerState) (slug : String)
    (ev : SSEEvent) (f : String → Bool) :
    (publishEvent s slug ev f).1.cursors = s.cursors := rfl

@[simp] theorem publishEvent_itemIdCounter (s : ServerState) (slug : String)
    (ev : SSEEvent) (f : String → Bool) :
    (publishEvent s slug ev f).1.itemIdCounter = s.itemIdCounter := rfl

@[simp] theorem publishEvent_clientIdCounter (s : ServerState) (slug : String)
    (ev : SSEEvent) (f : String → Bool) :
    (publishEvent s slug ev f).1.clientIdCounter = s.clientIdCounter := rfl

theorem alookup_adelete_self {α : Type} (m : List (String × α)) (k : String) :
    alookup (adelete m k) k = none := by
  induction m with
  | nil => simp [adelete, alookup]
  | cons kv rest ih =>
    obtain ⟨k0, v0⟩ := kv
    by_cases h : k0 = k
    · subst h; simpa [adelete, alookup] using ih
    · simpa [adelete, alookup, h] using ih

theorem removeFirstItem_none_of (items : List CanvasItem) (itemId : String)
    (h : ∀ it ∈ items, it.id ≠ itemId) :
    removeFirstItem items itemId = none := by
  induction items with
  | nil => rfl
  | cons it rest ih =>
    simp only [removeFirstItem,
      if_neg (h it (List.mem_cons_self it rest)), Option.map_eq_none']
    exact ih (fun x hx => h x (List.mem_cons_of_mem it hx))

theorem removeFirstItem_sublist (items : List CanvasItem) (itemId : String)
    (items' : List CanvasItem)
    (h : removeFirstItem items itemId = some items') : items'.Sublist items := by
  induction items generalizing items' with
  | nil => simp [removeFirstItem] at h
  | cons it rest ih =>
    by_cases hid : it.id = itemId
    · simp only [removeFirstItem, if_pos hid, Option.some_inj] at h
      subst h
      exact List.sublist_cons_self it rest
    · simp only [removeFirstItem, if_neg hid, Option.map_eq_some'] at h
      obtain ⟨l, hl, rfl⟩ := h
      exact (ih l hl).cons₂ it

theorem replaceFirstItem_of_find (items : List CanvasItem) (itemId : String)
    (u : UpdateItemRequest) (now : String) (it : CanvasItem)
    (h : items.find? (fun i => i.id = itemId) = some it) :
    ∃ items', replaceFirstItem items itemId u now =
      some (applyUpdates it u now, items') := by
  induction items with
  | nil => simp [List.find?] at h
  | cons hd rest ih =>
    by_cases hid : hd.id = itemId
    · rw [List.find?_cons_of_pos _ (by simp [hid])] at h
      injection h with h
      subst h
      exact ⟨applyUpdates hd u now :: rest, by simp [replaceFirstItem, hid]⟩
    · rw [List.find?_cons_of_neg _ (by simp [hid])] at h
      obtain ⟨items', hi⟩ := ih h
      exact ⟨hd :: items', by simp [replaceFirstItem, if_neg hid, hi]⟩

theorem replaceFirstItem_ids (items : List CanvasItem) (itemId : String)
    (u : UpdateItemRequest) (now : String) (it : CanvasItem)
    (items' : List CanvasItem)
    (h : replaceFirstItem items itemId u now = some (it, items')) :
    items'.map CanvasItem.id = items.map CanvasItem.id := by
  induction items generalizing it items' with
  | nil => simp [replaceFirstItem] at h
  | cons hd rest ih =>
    by_cases hid : hd.id = itemId
    · simp only [replaceFirstItem, if_pos hid, Option.some_inj, Prod.mk.injEq] at h
      obtain ⟨rfl, rfl⟩ := h
      simp [applyUpdates]
    · simp only [replaceFirstItem, if_neg hid, Option.map_eq_some'] at h
      obtain ⟨⟨a, l⟩, hl, heq⟩ := h
      simp only [Prod.mk.injEq] at heq
      obtain ⟨rfl, rfl⟩ := heq
      simp [ih a l hl]

/-! ## `MintedChain` facts -/

theorem MintedChain.le {a b : Nat} {ids : List String}
    (h : MintedChain a b ids) : a ≤ b := by
  induction h with
  | nil _ _ h => exact h
  | cons a b k t ids h1 _ ih => omega

theorem MintedChain.weaken {a a' b : Nat} {ids : List String}
    (h : MintedChain a b ids) (ha : a' ≤ a) : MintedChain a' b ids := by
  cases h with
  | nil _ _ hab => exact .nil _ _ (le_trans ha hab)
  | cons _ _ k t ids h1 h2 => exact .cons _ _ k t ids (by omega) h2

theorem MintedChain.append {a b c : Nat} {l1 l2 : List String}
    (h1 : MintedChain a b l1) (h2 : MintedChain b c l2) :
    MintedChain a c (l1 ++ l2) := by
  induction h1 with
  | nil _ _ hab => exact h2.weaken hab
  | cons a' b' k t ids hk _ ih =>
    exact .cons _ _ k t _ hk (ih h2)

theorem MintedChain.mem {a b : Nat} {ids : List String}
    (h : MintedChain a b ids) :
    ∀ x ∈ ids, ∃ k t, a < k ∧ k ≤ b ∧ x = generateItemId k t := by
  induction h with
  | nil => simp
  | cons a b k t ids h1 h2 ih =>
    intro x hx
    rcases List.mem_cons.mp hx with rfl | hx
    · exact ⟨k, t, h1, h2.le, rfl⟩
    · obtain ⟨k', t', hk', hb', rfl⟩ := ih x hx
      exact ⟨k', t', by omega, hb', rfl⟩

theorem MintedChain.nodup {a b : Nat} {ids : List String}
    (h : MintedChain a b ids) : ids.Nodup := by
  induction h with
  | nil => exact List.nodup_nil
  | cons a b k t ids h1 h2 ih =>
    refine List.nodup_cons.mpr ⟨?_, ih⟩
    intro hmem
    obtain ⟨k', t', hk', _, heq⟩ := h2.mem _ hmem
    exact absurd (generateItemId_inj heq.symm) (by omega)

/-! ## `spaceIdsOk` preservation lemmas -/

theorem spaceIdsOk.mono {c c' : Nat} {sp : Space} (h : spaceIdsOk c sp)
    (hc : c ≤ c') : spaceIdsOk c' sp := by
  obtain ⟨h1, h2⟩ := h
  refine ⟨fun it hit => ?_, h2⟩
  obtain ⟨k, t, hk1, hk2, hid⟩ := h1 it hit
  exact ⟨k, t, hk1, by omega, hid⟩

/-- A state-shaped invariant survives replacing one space that itself
satisfies it. -/
theorem idsOk_aset {m : List (String × Space)} {c : Nat}
    (hm : ∀ slug sp, alookup m slug = some sp → spaceIdsOk c sp)
    {slug0 : String} {sp0 : Space} (h0 : spaceIdsOk c sp0) :
    ∀ slug sp, alookup (aset m slug0 sp0) slug = some sp → spaceIdsOk c sp := by
  intro slug sp hsp
  by_cases h : slug = slug0
  · subst h
    rw [alookup_aset_self] at hsp
    injection hsp with hsp
    subst hsp
    exact h0
  · rw [alookup_aset_ne _ _ _ _ h] at hsp
    exact hm slug sp hsp

/-- The empty space satisfies the id invariant. -/
theorem spaceIdsOk_empty (c : Nat) (slug now : String) :
    spaceIdsOk c { slug := slug, items := [], createdAt := now, updatedAt := now } := by
  exact ⟨by simp, List.Pairwise.nil⟩

/-- `getOrCreateSpace` preserves the id invariant. -/
theorem idsOk_getOrCreate {m : List (String × Space)} {c : Nat}
    (hm : ∀ slug sp, alookup m slug = some sp → spaceIdsOk c sp)
    (slug0 now : String) :
    ∀ slug sp, alookup (getOrCreateSpace m slug0 now).2 slug = some sp →
      spaceIdsOk c sp := by
  unfold getOrCreateSpace
  cases hl : alookup m slug0 with
  | some sp => simpa using hm
  | none =>
    simpa using idsOk_aset hm (spaceIdsOk_empty c slug0 now)

/-! ## Filter-length facts for the fan-out count -/

theorem length_filter_ne_of_nodup (cs : List String) (e : String)
    (hnd : cs.Nodup) (he : e ∈ cs) :
    (cs.filter (fun c => !(c = e : Bool))).length = cs.length - 1 := by
  induction cs with
  | nil => simp at he
  | cons c rest ih =>
    by_cases hce : c = e
    · subst hce
      have hnot : ∀ x ∈ rest, ¬(x = c) := by
        intro x hx heq
        subst heq
        exact (List.nodup_cons.mp hnd).1 hx
      rw [List.filter_cons_of_neg (by simp)]
      rw [List.filter_eq_self.mpr (by intro x hx; simpa using hnot x hx)]
      simp
    · have hrest : e ∈ rest := by
        rcases List.mem_cons.mp he with heq | h
        · exact absurd heq.symm hce
        · exact h
      rw [List.filter_cons_of_pos (by simpa using hce)]
      rw [List.length_cons, ih (List.nodup_cons.mp hnd).2 hrest]
      have : 1 ≤ rest.length := List.length_pos.mpr (List.ne_nil_of_mem hrest)
      simp only [List.length_cons]
      omega

/-! ## Claim C8: `getOrCreate` is idempotent -/

/-- C8: for every syntactically valid slug, `getOrCreateSpace` is total
and idempotent: the second call returns the very same `Space` value
(same slug, same `createdAt`, same stored object), leaves the map
untouched, and its `updatedAt` equals the first call's, hence is
non-decreasing. -/
theorem getOrCreate_idempotent (m : List (String × Space))
    (slug now1 now2 : String) (h : validSlug slug = true) :
    (getOrCreateSpace (getOrCreateSpace m slug now1).2 slug now2).1 =
      (getOrCreateSpace m slug now1).1 ∧
    (getOrCreateSpace (getOrCreateSpace m slug now1).2 slug now2).2 =
      (getOrCreateSpace m slug now1).2 ∧
    (getOrCreateSpace (getOrCreateSpace m slug now1).2 slug now2).1.updatedAt =
      (getOrCreateSpace m slug now1).1.updatedAt := by
  cases hm : alookup m slug with
  | some sp => simp [getOrCreateSpace, hm]
  | none => simp [getOrCreateSpace, hm, alookup_aset_self]

/-- C8 witness at a concrete slug and empty map. -/
theorem getOrCreate_idempotent_witness :
    validSlug "demo" = true ∧
    ((getOrCreateSpace (getOrCreateSpace [] "demo" "t1").2 "demo" "t2").1 =
      (getOrCreateSpace [] "demo" "t1").1 ∧
    (getOrCreateSpace (getOrCreateSpace [] "demo" "t1").2 "demo" "t2").2 =
      (getOrCreateSpace [] "demo" "t1").2 ∧
    (getOrCreateSpace (getOrCreateSpace [] "demo" "t1").2 "demo" "t2").1.updatedAt =
      (getOrCreateSpace [] "demo" "t1").1.updatedAt) :=
  ⟨by decide, getOrCreate_idempotent [] "demo" "t1" "t2" (by decide)⟩

/-! ## Claim C6: deleting a missing item is a no-op -/

/-- C6: for every space (existing or not), deleting an item id that no
item of the space carries answers `NotFound` and changes nothing: the
whole state (item collections, `updatedAt`s, cursor maps, the hub's
subscriber registry) is exactly the old one, no event is published and
no frame delivered. -/
theorem deleteItem_missing_is_noop (s : ServerState) (slug itemId : String)
    (env : RequestEnv)
    (h : ∀ sp, alookup s.spaces slug = some sp → ∀ it ∈ sp.items, it.id ≠ itemId) :
    (deleteItemHandler s slug itemId env).state = s ∧
    (deleteItemHandler s slug itemId env).published = [] ∧
    (deleteItemHandler s slug itemId env).delivered = [] ∧
    ((deleteItemHandler s slug itemId env).resp =
        Response.errNotFound "Space not found" "SPACE_NOT_FOUND" ∨
      (deleteItemHandler s slug itemId env).resp =
        Response.errNotFound "Item not found" "ITEM_NOT_FOUND") := by
  cases hm : alookup s.spaces slug with
  | none => simp [deleteItemHandler, hm]
  | some sp =>
    simp [deleteItemHandler, hm, removeFirstItem_none_of sp.items itemId (h sp hm)]

/-- C6 witness: deleting the absent id `"nope"` in the example state. -/
theorem deleteItem_missing_is_noop_witness :
    (∀ sp, alookup exState.spaces "abc" = some sp →
      ∀ it ∈ sp.items, it.id ≠ "nope") ∧
    ((deleteItemHandler exState "abc" "nope" okEnv).state = exState ∧
    (deleteItemHandler exState "abc" "nope" okEnv).published = [] ∧
    (deleteItemHandler exState "abc" "nope" okEnv).delivered = [] ∧
    ((deleteItemHandler exState "abc" "nope" okEnv).resp =
        Response.errNotFound "Space not found" "SPACE_NOT_FOUND" ∨
      (deleteItemHandler exState "abc" "nope" okEnv).resp =
        Response.errNotFound "Item not found" "ITEM_NOT_FOUND")) :=
  ⟨by decide, deleteItem_missing_is_noop exState "abc" "nope" okEnv (by decide)⟩

/-! ## Claim C10: update cannot touch identity fields -/

/-- C10: for every space, item and accepted patch, the update operation
never changes the item's `id`, `type`, `createdBy` or `createdAt`: the
handler answers (and stores) exactly the merged item, and the merge
leaves those four fields of the matched item untouched, whatever the
patch holds. -/
theorem updateItem_preserves_identity_fields (s : ServerState)
    (slug itemId : String) (u : UpdateItemRequest) (env : RequestEnv)
    (sp : Space) (it : CanvasItem)
    (hs : alookup s.spaces slug = some sp)
    (hfind : sp.items.find? (fun i => i.id = itemId) = some it) :
    (updateItemHandler s slug itemId u env).resp =
      Response.okItem (applyUpdates it u env.now) ∧
    (applyUpdates it u env.now).id = it.id ∧
    (applyUpdates it u env.now).type = it.type ∧
    (applyUpdates it u env.now).createdBy = it.createdBy ∧
    (applyUpdates it u env.now).createdAt = it.createdAt := by
  obtain ⟨items', hrep⟩ := replaceFirstItem_of_find sp.items itemId u env.now it hfind
  exact ⟨by simp [updateItemHandler, hs, hrep], by simp [applyUpdates],
    by simp [applyUpdates], by simp [applyUpdates], by simp [applyUpdates]⟩

/-- C10 witness: an aggressive patch on the example item moves every
mutable field but none of the identity fields. -/
theorem updateItem_preserves_identity_fields_witness :
    alookup exState.spaces "abc" = some exSpace ∧
    exSpace.items.find? (fun i => i.id = "i1") = some exItem ∧
    ((updateItemHandler exState "abc" "i1"
        { x := some 9, content := some "bye", zIndex := some 7 } okEnv).resp =
      Response.okItem (applyUpdates exItem
        { x := some 9, content := some "bye", zIndex := some 7 } okEnv.now) ∧
    (applyUpdates exItem
        { x := some 9, content := some "bye", zIndex := some 7 } okEnv.now).id = exItem.id ∧
    (applyUpdates exItem
        { x := some 9, content := some "bye", zIndex := some 7 } okEnv.now).type = exItem.type ∧
    (applyUpdates exItem
        { x := some 9, content := some "bye", zIndex := some 7 } okEnv.now).createdBy = exItem.createdBy ∧
    (applyUpdates exItem
        { x := some 9, content := some "bye", zIndex := some 7 } okEnv.now).createdAt = exItem.createdAt) :=
  ⟨by decide, by decide,
    updateItem_preserves_identity_fields exState "abc" "i1"
      { x := some 9, content := some "bye", zIndex := some 7 } okEnv
      exSpace exItem (by decide) (by decide)⟩

/-! ## Claim C7: reset empties items but keeps the Space and cursors -/

/-- C7: for every existing space, `resetSpace` answers success, empties
the item collection and bumps `updatedAt` while keeping the record
(same slug, same `createdAt`), leaves every cursor map untouched, and a
subsequent `getOrCreateSpace` on the same slug finds that same record
(same identity, original `createdAt`) without creating anything. -/
theorem resetSpace_keeps_record (s : ServerState) (slug now2 : String)
    (env : RequestEnv) (sp : Space) (db : Option DbSpaceRec)
    (hs : alookup s.spaces slug = some sp)
    (hdb : env.findUnique = .ok db) :
    (resetSpaceHandler s slug env).resp = Response.okSuccess ∧
    alookup (resetSpaceHandler s slug env).state.spaces slug =
      some { sp with items := [], updatedAt := env.now } ∧
    (resetSpaceHandler s slug env).state.cursors = s.cursors ∧
    (resetSpaceHandler s slug env).published = [SSEEvent.spaceReset] ∧
    (getOrCreateSpace (resetSpaceHandler s slug env).state.spaces slug now2).1 =
      { sp with items := [], updatedAt := env.now } ∧
    (getOrCreateSpace (resetSpaceHandler s slug env).state.spaces slug now2).1.createdAt
      = sp.createdAt ∧
    (getOrCreateSpace (resetSpaceHandler s slug env).state.spaces slug now2).2 =
      (resetSpaceHandler s slug env).state.spaces := by
  have hspaces : (resetSpaceHandler s slug env).state.spaces =
      aset s.spaces slug { sp with items := [], updatedAt := env.now } := by
    simp [resetSpaceHandler, hs, hdb]
  have hlook := alookup_aset_self s.spaces slug
    { sp with items := [], updatedAt := env.now }
  refine ⟨by simp [resetSpaceHandler, hs, hdb], ?_, ?_, ?_, ?_, ?_, ?_⟩
  · rw [hspaces]; exact hlook
  · simp [resetSpaceHandler, hs, hdb]
  · simp [resetSpaceHandler, hs, hdb]
  · rw [hspaces]; simp [getOrCreateSpace, hlook]
  · rw [hspaces]; simp [getOrCreateSpace, hlook]
  · rw [hspaces]; simp [getOrCreateSpace, hlook]

/-- C7 witness: resetting the example space. -/
theorem resetSpace_keeps_record_witness :
    alookup exState.spaces "abc" = some exSpace ∧
    okEnv.findUnique = Except.ok none ∧
    ((resetSpaceHandler exState "abc" okEnv).resp = Response.okSuccess ∧
    alookup (resetSpaceHandler exState "abc" okEnv).state.spaces "abc" =
      some { exSpace with items := [], updatedAt := okEnv.now } ∧
    (resetSpaceHandler exState "abc" okEnv).state.cursors = exState.cursors ∧
    (resetSpaceHandler exState "abc" okEnv).published = [SSEEvent.spaceReset] ∧
    (getOrCreateSpace (resetSpaceHandler exState "abc" okEnv).state.spaces "abc" "t9").1 =
      { exSpace with items := [], updatedAt := okEnv.now } ∧
    (getOrCreateSpace (resetSpaceHandler exState "abc" okEnv).state.spaces "abc" "t9").1.createdAt
      = exSpace.createdAt ∧
    (getOrCreateSpace (resetSpaceHandler exState "abc" okEnv).state.spaces "abc" "t9").2 =
      (resetSpaceHandler exState "abc" okEnv).state.spaces) :=
  ⟨by decide, rfl,
    resetSpace_keeps_record exState "abc" "t9" okEnv exSpace none
      (by decide) rfl⟩

/-! ## Claim C9: cursor upsert reports join then move -/

/-- C9: for a space and a client id with no tracked cursor, the first
cursor upsert computes `isNew = true` and broadcasts `cursor:join`, a
second upsert with the same client id computes `isNew = false` and
broadcasts `cursor:move`, and the stored cursor is overwritten each
time (it ends as the second payload). -/
theorem cursor_join_then_move (s : ServerState) (slug : String)
    (d1 d2 : CursorPosition) (env1 env2 : RequestEnv)
    (hid : d2.clientId = d1.clientId)
    (hnew : alookup ((alookup s.cursors slug).getD []) d1.clientId = none) :
    (upsertCursor ((alookup s.cursors slug).getD []) d1).1 = true ∧
    (cursorUpsertHandler s slug d1 env1).published = [SSEEvent.cursorJoin d1] ∧
    (upsertCursor
      ((alookup (cursorUpsertHandler s slug d1 env1).state.cursors slug).getD [])
      d2).1 = false ∧
    (cursorUpsertHandler (cursorUpsertHandler s slug d1 env1).state slug d2
      env2).published = [SSEEvent.cursorMove d2] ∧
    alookup ((alookup (cursorUpsertHandler (cursorUpsertHandler s slug d1 env1).state
        slug d2 env2).state.cursors slug).getD []) d1.clientId = some d2 := by
  have hcur1 : (cursorUpsertHandler s slug d1 env1).state.cursors =
      aset s.cursors slug
        (aset ((alookup s.cursors slug).getD []) d1.clientId d1) := by
    simp [cursorUpsertHandler, upsertCursor]
  have hlook1 : alookup (cursorUpsertHandler s slug d1 env1).state.cursors slug =
      some (aset ((alookup s.cursors slug).getD []) d1.clientId d1) := by
    rw [hcur1]; exact alookup_aset_self _ _ _
  have hfound : alookup
      ((alookup (cursorUpsertHandler s slug d1 env1).state.cursors slug).getD [])
      d2.clientId = some d1 := by
    rw [hlook1, hid]
    simpa using alookup_aset_self _ _ d1
  refine ⟨by simp [upsertCursor, hnew], ?_, ?_, ?_, ?_⟩
  · simp [cursorUpsertHandler, upsertCursor, hnew]
  · simp [upsertCursor, hfound]
  · have hfound2 : alookup ((alookup (aset s.cursors slug
        (aset ((alookup s.cursors slug).getD []) d1.clientId d1)) slug).getD [])
        d2.clientId = some d1 := by
      rw [alookup_aset_self]
      simp only [Option.getD_some]
      rw [hid]
      exact alookup_aset_self _ _ _
    simp [cursorUpsertHandler, upsertCursor, hfound2]
  · have hcur2 : (cursorUpsertHandler (cursorUpsertHandler s slug d1 env1).state
        slug d2 env2).state.cursors =
      aset (cursorUpsertHandler s slug d1 env1).state.cursors slug
        (aset ((alookup (cursorUpsertHandler s slug d1 env1).state.cursors slug).getD [])
          d2.clientId d2) := by
      simp [cursorUpsertHandler, upsertCursor]
    rw [hcur2]
    rw [alookup_aset_self]
    simp only [Option.getD_some]
    rw [← hid]
    exact alookup_aset_self _ _ _

/-- C9 witness: two cursor updates for tab `"t2"` on the example
state. -/
theorem cursor_join_then_move_witness :
    ({ clientId := "t2", x := 8, y := 9 : CursorPosition }).clientId =
      ({ clientId := "t2", x := 1, y := 2 : CursorPosition }).clientId ∧
    alookup ((alookup exState.cursors "abc").getD []) "t2" = none ∧
    ((upsertCursor ((alookup exState.cursors "abc").getD [])
        { clientId := "t2", x := 1, y := 2 }).1 = true ∧
    (cursorUpsertHandler exState "abc" { clientId := "t2", x := 1, y := 2 }
        okEnv).published = [SSEEvent.cursorJoin { clientId := "t2", x := 1, y := 2 }] ∧
    (upsertCursor
      ((alookup (cursorUpsertHandler exState "abc" { clientId := "t2", x := 1, y := 2 }
          okEnv).state.cursors "abc").getD [])
      { clientId := "t2", x := 8, y := 9 }).1 = false ∧
    (cursorUpsertHandler (cursorUpsertHandler exState "abc"
        { clientId := "t2", x := 1, y := 2 } okEnv).state "abc"
        { clientId := "t2", x := 8, y := 9 } okEnv).published =
      [SSEEvent.cursorMove { clientId := "t2", x := 8, y := 9 }] ∧
    alookup ((alookup (cursorUpsertHandler (cursorUpsertHandler exState "abc"
        { clientId := "t2", x := 1, y := 2 } okEnv).state "abc"
        { clientId := "t2", x := 8, y := 9 } okEnv).state.cursors "abc").getD [])
      ({ clientId := "t2", x := 1, y := 2 : CursorPosition }).clientId =
      some { clientId := "t2", x := 8, y := 9 }) :=
  ⟨by decide, by decide,
    cursor_join_then_move exState "abc"
      { clientId := "t2", x := 1, y := 2 } { clientId := "t2", x := 8, y := 9 }
      okEnv okEnv (by decide) (by decide)⟩

/-! ## Claim C4: the `x`-only patch (corrected: `updatedAt` is bumped) -/

/-- C4 (amended): for every space and item present in it, an update
whose patch contains only `x := 5` answers (and stores) the item with
`x` set to `5`, `updatedAt` stamped with the handler's clock, and every
other field (including `y`, dimensions, content, variant payloads,
`id`, `type`, `createdBy`, `createdAt`) exactly as before — a partial
merge, never a full replace. -/
theorem updateItem_xonly_patch (s : ServerState) (slug itemId : String)
    (env : RequestEnv) (sp : Space) (it : CanvasItem)
    (hs : alookup s.spaces slug = some sp)
    (hfind : sp.items.find? (fun i => i.id = itemId) = some it) :
    (updateItemHandler s slug itemId xOnlyPatch env).resp =
      Response.okItem (applyUpdates it xOnlyPatch env.now) ∧
    applyUpdates it xOnlyPatch env.now =
      { it with x := 5, updatedAt := env.now } := by
  obtain ⟨items', hrep⟩ :=
    replaceFirstItem_of_find sp.items itemId xOnlyPatch env.now it hfind
  exact ⟨by simp [updateItemHandler, hs, hrep],
    by simp [applyUpdates, xOnlyPatch]⟩

/-- C4 witness: the `x`-only patch applied to the example item. -/
theorem updateItem_xonly_patch_witness :
    alookup exState.spaces "abc" = some exSpace ∧
    exSpace.items.find? (fun i => i.id = "i1") = some exItem ∧
    ((updateItemHandler exState "abc" "i1" xOnlyPatch okEnv).resp =
      Response.okItem (applyUpdates exItem xOnlyPatch okEnv.now) ∧
    applyUpdates exItem xOnlyPatch okEnv.now =
      { exItem with x := 5, updatedAt := okEnv.now }) :=
  ⟨by decide, by decide,
    updateItem_xonly_patch exState "abc" "i1" okEnv exSpace exItem
      (by decide) (by decide)⟩

/-- C4 counterexample to the claim as stated: on the example item the
`x`-only patch does NOT leave every other field unchanged — the
handler bumps the item's `updatedAt` field. -/
theorem updateItem_xonly_patch_cex :
    (updateItemHandler exState "abc" "i1" xOnlyPatch okEnv).resp =
      Response.okItem (applyUpdates exItem xOnlyPatch okEnv.now) ∧
    (applyUpdates exItem xOnlyPatch okEnv.now).x = 5 ∧
    (applyUpdates exItem xOnlyPatch okEnv.now).updatedAt ≠ exItem.updatedAt := by
  refine ⟨by decide, by decide, by decide⟩

/-- One `broadcast` call on a non-empty subscriber set, written out. -/
theorem broadcast_eq (m : ClientsMap) (slug : String) (excl : Option String)
    (fails : String → Bool) (cs : List String)
    (hm : alookup m slug = some cs) (hne : cs.isEmpty = false) :
    broadcast m slug excl fails =
      ⟨(if (cs.filter (fun x => !(!isExcludedClient excl x && fails x))).isEmpty
          then adelete m slug
          else aset m slug
            (cs.filter (fun x => !(!isExcludedClient excl x && fails x)))),
        cs.filter (fun x => !isExcludedClient excl x),
        (cs.filter (fun x => !isExcludedClient excl x)).filter (fun x => !fails x),
        (cs.filter (fun x => !isExcludedClient excl x)).filter (fun x => fails x)⟩ := by
  unfold broadcast
  rw [hm]
  simp only [hne, Bool.false_eq_true, if_false]

/-! ## Claim C5: fan-out count and eviction of throwing sinks -/

/-- C5: for a space whose registered subscribers are all live (no sink
throws), one publish delivers the frame to exactly N sinks, or N−1 when
an exclusion id naming one registered subscriber is given; and, for any
publish, every non-excluded subscriber whose sink throws is gone from
the hub's registry the moment the call returns. -/
theorem broadcast_fanout (m : ClientsMap) (slug e : String)
    (cs : List String) (fails : String → Bool)
    (hm : alookup m slug = some cs) (hne : cs ≠ []) :
    ((∀ c ∈ cs, fails c = false) →
      (broadcast m slug none fails).delivered.length = cs.length) ∧
    ((∀ c ∈ cs, fails c = false) → e ∈ cs → e ≠ "" → cs.Nodup →
      (broadcast m slug (some e) fails).delivered.length = cs.length - 1) ∧
    (∀ excl : Option String, ∀ c ∈ cs, fails c = true →
      isExcludedClient excl c = false →
      ∀ cs2, alookup (broadcast m slug excl fails).clients slug = some cs2 →
        c ∉ cs2) := by
  have hie : cs.isEmpty = false := by
    cases cs with
    | nil => exact absurd rfl hne
    | cons a l => rfl
  refine ⟨?_, ?_, ?_⟩
  · intro hlive
    have h1 : (broadcast m slug none fails).delivered
        = cs.filter (fun c => !fails c) := by
      simp [broadcast, hm, hie, isExcludedClient]
    rw [h1, List.filter_eq_self.mpr]
    intro a ha
    simp [hlive a ha]
  · intro hlive he hene hnd
    have hexcl : ∀ c, isExcludedClient (some e) c = (c = e : Bool) := by
      intro c
      simp [isExcludedClient, hene]
    have h1 : (broadcast m slug (some e) fails).delivered
        = (cs.filter (fun c => !(c = e : Bool))).filter (fun c => !fails c) := by
      simp [broadcast, hm, hie, hexcl]
    rw [h1]
    rw [List.filter_eq_self.mpr (fun a ha => by
      simp [hlive a (List.mem_of_mem_filter ha)])]
    exact length_filter_ne_of_nodup cs e hnd he
  · intro excl c hc hcf hcex cs2 hcs2
    rw [broadcast_eq m slug excl fails cs hm hie] at hcs2
    cases hrem : (cs.filter
        (fun x => !(!isExcludedClient excl x && fails x))).isEmpty with
    | true =>
      rw [show ((⟨(if (cs.filter (fun x => !(!isExcludedClient excl x && fails x))).isEmpty
            then adelete m slug
            else aset m slug
              (cs.filter (fun x => !(!isExcludedClient excl x && fails x)))),
          cs.filter (fun x => !isExcludedClient excl x),
          (cs.filter (fun x => !isExcludedClient excl x)).filter (fun x => !fails x),
          (cs.filter (fun x => !isExcludedClient excl x)).filter (fun x => fails x)⟩ :
          BroadcastResult)).clients =
          (if (cs.filter (fun x => !(!isExcludedClient excl x && fails x))).isEmpty
            then adelete m slug
            else aset m slug
              (cs.filter (fun x => !(!isExcludedClient excl x && fails x)))) from rfl,
        hrem, if_pos rfl, alookup_adelete_self] at hcs2
      cases hcs2
    | false =>
      rw [show ((⟨(if (cs.filter (fun x => !(!isExcludedClient excl x && fails x))).isEmpty
            then adelete m slug
            else aset m slug
              (cs.filter (fun x => !(!isExcludedClient excl x && fails x)))),
          cs.filter (fun x => !isExcludedClient excl x),
          (cs.filter (fun x => !isExcludedClient excl x)).filter (fun x => !fails x),
          (cs.filter (fun x => !isExcludedClient excl x)).filter (fun x => fails x)⟩ :
          BroadcastResult)).clients =
          (if (cs.filter (fun x => !(!isExcludedClient excl x && fails x))).isEmpty
            then adelete m slug
            else aset m slug
              (cs.filter (fun x => !(!isExcludedClient excl x && fails x)))) from rfl,
        hrem] at hcs2
      simp only [Bool.false_eq_true, if_false, alookup_aset_self] at hcs2
      injection hcs2 with hcs2
      subst hcs2
      intro hmem
      have := (List.mem_filter.mp hmem).2
      simp [hcf, hcex] at this

/-- C5 witness: two live subscribers of the example state. -/
theorem broadcast_fanout_witness :
    alookup exState.clients "abc" = some ["client-1-50", "client-2-60"] ∧
    (["client-1-50", "client-2-60"] : List String) ≠ [] ∧
    (((∀ c ∈ (["client-1-50", "client-2-60"] : List String),
        (fun (_ : String) => false) c = false) →
      (broadcast exState.clients "abc" none (fun _ => false)).delivered.length =
        (["client-1-50", "client-2-60"] : List String).length) ∧
    ((∀ c ∈ (["client-1-50", "client-2-60"] : List String),
        (fun (_ : String) => false) c = false) →
      "client-1-50" ∈ (["client-1-50", "client-2-60"] : List String) →
      "client-1-50" ≠ "" → (["client-1-50", "client-2-60"] : List String).Nodup →
      (broadcast exState.clients "abc" (some "client-1-50")
        (fun _ => false)).delivered.length =
        (["client-1-50", "client-2-60"] : List String).length - 1) ∧
    (∀ excl : Option String, ∀ c ∈ (["client-1-50", "client-2-60"] : List String),
      (fun (_ : String) => false) c = true →
      isExcludedClient excl c = false →
      ∀ cs2, alookup (broadcast exState.clients "abc" excl
          (fun _ => false)).clients "abc" = some cs2 →
        c ∉ cs2)) :=
  ⟨by decide, by decide,
    broadcast_fanout exState.clients "abc" "client-1-50"
      ["client-1-50", "client-2-60"] (fun _ => false) (by decide) (by decide)⟩

/-! ## Claim C1: the blocking check (corrected: only the GET route
consults it) -/

/-- C1 (amended): the blocking predicate is consulted only by the
space-fetch route.  When the Prisma row for the slug says blocked, the
get-space handler fails with 403 (`SPACE_BLOCKED`) carrying the stored
reason and touches no state; the mutating create-item intent on the
very same environment never consults the flag: it succeeds (201) and
appends the item to the in-memory space. -/
theorem blocked_check_only_on_get (s : ServerState) (slug : String)
    (body : CreateItemRequest) (env : RequestEnv) (r : DbSpaceRec)
    (hdb : env.findUnique = .ok (some r)) (hb : r.blocked = true) :
    getSpaceHandler s slug env =
      ⟨Response.errForbidden "This space has been blocked" "SPACE_BLOCKED"
        r.blockedReason, s, [], []⟩ ∧
    (createItemHandler s slug body env).resp = Response.okCreated
      (buildItem (chooseItemId body.id s.itemIdCounter env.nowMs).1 body env.now) ∧
    alookup (createItemHandler s slug body env).state.spaces slug =
      some { (getOrCreateSpace s.spaces slug env.now).1 with
        items := (getOrCreateSpace s.spaces slug env.now).1.items ++
          [buildItem (chooseItemId body.id s.itemIdCounter env.nowMs).1 body env.now],
        updatedAt := env.now } := by
  refine ⟨by simp [getSpaceHandler, hdb, hb], ?_, ?_⟩
  · simp [createItemHandler, hdb]
  · simp [createItemHandler, hdb, alookup_aset_self]

/-- C1 witness: a blocked row with reason `"spam"` over the example
state. -/
theorem blocked_check_only_on_get_witness :
    blockedEnv.findUnique =
      Except.ok (some { id := "db1", blocked := true, blockedReason := some "spam" }) ∧
    ({ id := "db1", blocked := true, blockedReason := some "spam" : DbSpaceRec }).blocked
      = true ∧
    (getSpaceHandler exState "abc" blockedEnv =
      ⟨Response.errForbidden "This space has been blocked" "SPACE_BLOCKED"
        (some "spam"), exState, [], []⟩ ∧
    (createItemHandler exState "abc" exBody blockedEnv).resp = Response.okCreated
      (buildItem (chooseItemId exBody.id exState.itemIdCounter blockedEnv.nowMs).1
        exBody blockedEnv.now) ∧
    alookup (createItemHandler exState "abc" exBody blockedEnv).state.spaces "abc" =
      some { (getOrCreateSpace exState.spaces "abc" blockedEnv.now).1 with
        items := (getOrCreateSpace exState.spaces "abc" blockedEnv.now).1.items ++
          [buildItem (chooseItemId exBody.id exState.itemIdCounter blockedEnv.nowMs).1
            exBody blockedEnv.now],
        updatedAt := blockedEnv.now }) :=
  ⟨rfl, by decide,
    blocked_check_only_on_get exState "abc" exBody blockedEnv
      { id := "db1", blocked := true, blockedReason := some "spam" } rfl rfl⟩

/-- C1 counterexample to the claim as stated: on the empty server, with
the external check reporting the slug blocked (reason `"spam"`), the
mutating create-item intent does not fail with `Forbidden` — it answers
201 and the in-memory store now holds the item. -/
theorem blocked_create_mutates_cex :
    (createItemHandler initialState "abc" exBody blockedEnv).resp =
      Response.okCreated (buildItem "item-1-7" exBody blockedEnv.now) ∧
    (alookup (createItemHandler initialState "abc" exBody
        blockedEnv).state.spaces "abc").map (fun sp => sp.items.map CanvasItem.id) =
      some ["item-1-7"] := by
  refine ⟨by decide, by decide⟩

/-! ## Claim C3: persistence-mirror failures (corrected: the un-guarded
`findUnique` read is not swallowed) -/

/-- C3 (amended): every `.catch`-guarded mirror write may fail without
any effect: with all four guarded Prisma writes rejecting, create still
answers 201, stores the item and publishes `item:created`; delete still
answers success, removes the item and publishes `item:deleted`; reset
still answers success, empties the space and publishes `space:reset`.
But the un-guarded mirror read (`prisma.space.findUnique`) in the
create handler is not swallowed: when it rejects, the handler errors
after the in-memory mutation (the new item stays, nothing is rolled
back) and the broadcast never happens. -/
theorem mirror_write_failures_swallowed (s : ServerState)
    (slug itemId : String) (body : CreateItemRequest)
    (env envE : RequestEnv) (r : Option DbSpaceRec)
    (hflags : env.spaceUpsertFails = true ∧ env.itemCreateFails = true ∧
      env.itemDeleteFails = true ∧ env.deleteManyFails = true)
    (hok : env.findUnique = .ok r)
    (herr : envE.findUnique = .error ()) :
    ((createItemHandler s slug body env).resp = Response.okCreated
      (buildItem (chooseItemId body.id s.itemIdCounter env.nowMs).1 body env.now) ∧
    (createItemHandler s slug body env).published = [SSEEvent.itemCreated
      (buildItem (chooseItemId body.id s.itemIdCounter env.nowMs).1 body env.now)] ∧
    alookup (createItemHandler s slug body env).state.spaces slug =
      some { (getOrCreateSpace s.spaces slug env.now).1 with
        items := (getOrCreateSpace s.spaces slug env.now).1.items ++
          [buildItem (chooseItemId body.id s.itemIdCounter env.nowMs).1 body env.now],
        updatedAt := env.now }) ∧
    (∀ sp items', alookup s.spaces slug = some sp →
      removeFirstItem sp.items itemId = some items' →
      (deleteItemHandler s slug itemId env).resp = Response.okSuccess ∧
      (deleteItemHandler s slug itemId env).published =
        [SSEEvent.itemDeleted itemId] ∧
      alookup (deleteItemHandler s slug itemId env).state.spaces slug =
        some { sp with items := items', updatedAt := env.now }) ∧
    (∀ sp, alookup s.spaces slug = some sp →
      (resetSpaceHandler s slug env).resp = Response.okSuccess ∧
      (resetSpaceHandler s slug env).published = [SSEEvent.spaceReset] ∧
      alookup (resetSpaceHandler s slug env).state.spaces slug =
        some { sp with items := [], updatedAt := env.now }) ∧
    ((createItemHandler s slug body envE).resp = Response.errServer ∧
    (createItemHandler s slug body envE).published = [] ∧
    (createItemHandler s slug body envE).delivered = [] ∧
    alookup (createItemHandler s slug body envE).state.spaces slug =
      some { (getOrCreateSpace s.spaces slug envE.now).1 with
        items := (getOrCreateSpace s.spaces slug envE.now).1.items ++
          [buildItem (chooseItemId body.id s.itemIdCounter envE.nowMs).1 body envE.now],
        updatedAt := envE.now }) := by
  refine ⟨⟨?_, ?_, ?_⟩, ?_, ?_, ?_, ?_, ?_, ?_⟩
  · simp [createItemHandler, hok]
  · simp [createItemHandler, hok]
  · simp [createItemHandler, hok, alookup_aset_self]
  · intro sp items' hs hrem
    exact ⟨by simp [deleteItemHandler, hs, hrem],
      by simp [deleteItemHandler, hs, hrem],
      by simp [deleteItemHandler, hs, hrem, alookup_aset_self]⟩
  · intro sp hs
    exact ⟨by simp [resetSpaceHandler, hs, hok],
      by simp [resetSpaceHandler, hs, hok],
      by simp [resetSpaceHandler, hs, hok, alookup_aset_self]⟩
  · simp [createItemHandler, herr]
  · simp [createItemHandler, herr]
  · simp [createItemHandler, herr]
  · simp [createItemHandler, herr, alookup_aset_self]

/-- C3 witness: all guarded writes rejecting on the example state. -/
theorem mirror_write_failures_swallowed_witness :
    (allWritesFailEnv.spaceUpsertFails = true ∧
      allWritesFailEnv.itemCreateFails = true ∧
      allWritesFailEnv.itemDeleteFails = true ∧
      allWritesFailEnv.deleteManyFails = true) ∧
    allWritesFailEnv.findUnique = Except.ok none ∧
    lookupThrowsEnv.findUnique = Except.error () ∧
    (((createItemHandler exState "abc" exBody allWritesFailEnv).resp =
        Response.okCreated (buildItem
          (chooseItemId exBody.id exState.itemIdCounter allWritesFailEnv.nowMs).1
          exBody allWritesFailEnv.now) ∧
    (createItemHandler exState "abc" exBody allWritesFailEnv).published =
      [SSEEvent.itemCreated (buildItem
        (chooseItemId exBody.id exState.itemIdCounter allWritesFailEnv.nowMs).1
        exBody allWritesFailEnv.now)] ∧
    alookup (createItemHandler exState "abc" exBody
        allWritesFailEnv).state.spaces "abc" =
      some { (getOrCreateSpace exState.spaces "abc" allWritesFailEnv.now).1 with
        items := (getOrCreateSpace exState.spaces "abc" allWritesFailEnv.now).1.items
          ++ [buildItem
            (chooseItemId exBody.id exState.itemIdCounter allWritesFailEnv.nowMs).1
            exBody allWritesFailEnv.now],
        updatedAt := allWritesFailEnv.now }) ∧
    (∀ sp items', alookup exState.spaces "abc" = some sp →
      removeFirstItem sp.items "i1" = some items' →
      (deleteItemHandler exState "abc" "i1" allWritesFailEnv).resp =
        Response.okSuccess ∧
      (deleteItemHandler exState "abc" "i1" allWritesFailEnv).published =
        [SSEEvent.itemDeleted "i1"] ∧
      alookup (deleteItemHandler exState "abc" "i1"
          allWritesFailEnv).state.spaces "abc" =
        some { sp with items := items', updatedAt := allWritesFailEnv.now }) ∧
    (∀ sp, alookup exState.spaces "abc" = some sp →
      (resetSpaceHandler exState "abc" allWritesFailEnv).resp =
        Response.okSuccess ∧
      (resetSpaceHandler exState "abc" allWritesFailEnv).published =
        [SSEEvent.spaceReset] ∧
      alookup (resetSpaceHandler exState "abc"
          allWritesFailEnv).state.spaces "abc" =
        some { sp with items := [], updatedAt := allWritesFailEnv.now }) ∧
    ((createItemHandler exState "abc" exBody lookupThrowsEnv).resp =
        Response.errServer ∧
    (createItemHandler exState "abc" exBody lookupThrowsEnv).published = [] ∧
    (createItemHandler exState "abc" exBody lookupThrowsEnv).delivered = [] ∧
    alookup (createItemHandler exState "abc" exBody
        lookupThrowsEnv).state.spaces "abc" =
      some { (getOrCreateSpace exState.spaces "abc" lookupThrowsEnv.now).1 with
        items := (getOrCreateSpace exState.spaces "abc" lookupThrowsEnv.now).1.items
          ++ [buildItem
            (chooseItemId exBody.id exState.itemIdCounter lookupThrowsEnv.nowMs).1
            exBody lookupThrowsEnv.now],
        updatedAt := lookupThrowsEnv.now })) :=
  ⟨by decide, rfl, rfl,
    mirror_write_failures_swallowed exState "abc" "i1" exBody
      allWritesFailEnv lookupThrowsEnv none (by decide) rfl rfl⟩

/-- C3 counterexample to the claim as stated: in the example state,
with the un-guarded mirror lookup rejecting, create-item still applies
the in-memory mutation (two items now) but publishes nothing, delivers
nothing, and answers an error instead of success. -/
theorem mirror_lookup_failure_blocks_broadcast_cex :
    (createItemHandler exState "abc" exBody lookupThrowsEnv).resp =
      Response.errServer ∧
    (createItemHandler exState "abc" exBody lookupThrowsEnv).published = [] ∧
    (createItemHandler exState "abc" exBody lookupThrowsEnv).delivered = [] ∧
    (alookup (createItemHandler exState "abc" exBody
        lookupThrowsEnv).state.spaces "abc").map (fun sp => sp.items.length) =
      some 2 := by
  refine ⟨by decide, by decide, by decide, by decide⟩

/-! ## Per-step id-invariant lemmas (towards claim C2) -/

/-- `spaceIdsOk` only inspects the ids, so it transfers along any
id-preserving rewrite of the item list. -/
theorem spaceIdsOk_of_ids_eq {c : Nat} {sp sp' : Space}
    (h : spaceIdsOk c sp) (hids : sp'.items.map CanvasItem.id = sp.items.map CanvasItem.id) :
    spaceIdsOk c sp' := by
  obtain ⟨h1, h2⟩ := h
  constructor
  · intro it hit
    have : it.id ∈ sp.items.map CanvasItem.id := by
      rw [← hids]
      exact List.mem_map_of_mem _ hit
    obtain ⟨orig, horig, hid⟩ := List.mem_map.mp this
    obtain ⟨k, t, hk1, hk2, hidk⟩ := h1 orig horig
    exact ⟨k, t, hk1, hk2, by rw [← hid, hidk]⟩
  · have hp : (sp.items.map CanvasItem.id).Pairwise (fun a b => a ≠ b) :=
      List.pairwise_map.mpr h2
    rw [← hids] at hp
    exact List.pairwise_map.mp hp

/-- `spaceIdsOk` survives dropping items. -/
theorem spaceIdsOk_of_sublist {c : Nat} {sp sp' : Space}
    (h : spaceIdsOk c sp) (hsub : sp'.items.Sublist sp.items) :
    spaceIdsOk c sp' := by
  obtain ⟨h1, h2⟩ := h
  exact ⟨fun it hit => h1 it (hsub.subset hit), h2.sublist hsub⟩

/-- The space `getOrCreateSpace` hands back satisfies the invariant. -/
theorem spaceIdsOk_getOrCreate_fst {m : List (String × Space)} {c : Nat}
    (hm : ∀ slug sp, alookup m slug = some sp → spaceIdsOk c sp)
    (slug now : String) :
    spaceIdsOk c (getOrCreateSpace m slug now).1 := by
  unfold getOrCreateSpace
  cases hl : alookup m slug with
  | some sp => exact hm slug sp hl
  | none => exact spaceIdsOk_empty c slug now

/-- Appending one freshly-minted item keeps ids pairwise distinct and
re-establishes the bound at the bumped counter. -/
theorem spaceIdsOk_append (c t : Nat) (sp : Space) (item : CanvasItem)
    (now : String) (h : spaceIdsOk c sp)
    (hid : item.id = generateItemId (c + 1) t) :
    spaceIdsOk (c + 1)
      { sp with items := sp.items ++ [item], updatedAt := now } := by
  obtain ⟨h1, h2⟩ := h
  constructor
  · intro it hit
    rcases List.mem_append.mp hit with hmem | hmem
    · obtain ⟨k, t', hk1, hk2, hidk⟩ := h1 it hmem
      exact ⟨k, t', hk1, by omega, hidk⟩
    · have : it = item := by simpa using hmem
      subst this
      exact ⟨c + 1, t, by omega, le_refl _, hid⟩
  · have : (sp.items ++ [item]).Pairwise (fun a b => a.id ≠ b.id) := by
      rw [List.pairwise_append]
      refine ⟨h2, List.pairwise_singleton _ _, ?_⟩
      intro a ha b hb
      have hbitem : b = item := by simpa using hb
      subst hbitem
      obtain ⟨k, t', hk1, hk2, hidk⟩ := h1 a ha
      rw [hidk, hid]
      intro heq
      have := generateItemId_inj heq
      omega
    exact this

/-- Cursor events never announce a created id. -/
theorem createdIds_cursor_event (b : Bool) (p : CursorPosition) :
    createdIds [if b then SSEEvent.cursorJoin p else SSEEvent.cursorMove p]
      = [] := by
  cases b <;> rfl


/-- One gateway step whose create (if it is one) lets the server mint
the id: the id invariant is preserved, the item counter never
decreases, and the announced created ids form a strictly climbing
minted run between the two counters. -/
theorem step_idsOk (s : ServerState) (r : Request)
    (hr : omitsClientId r = true) (hs : stateIdsOk s) :
    stateIdsOk (stepRequest s r).state ∧
    s.itemIdCounter ≤ (stepRequest s r).state.itemIdCounter ∧
    MintedChain s.itemIdCounter (stepRequest s r).state.itemIdCounter
      (createdIds (stepRequest s r).published) := by
  cases r with
  | getSpace slug env =>
    show stateIdsOk (getSpaceHandler s slug env).state ∧
      s.itemIdCounter ≤ (getSpaceHandler s slug env).state.itemIdCounter ∧
      MintedChain s.itemIdCounter (getSpaceHandler s slug env).state.itemIdCounter
        (createdIds (getSpaceHandler s slug env).published)
    unfold getSpaceHandler
    rcases hg : getOrCreateSpace s.spaces slug env.now with ⟨sp0, m0⟩
    have hm0 : ∀ slug' sp, alookup m0 slug' = some sp →
        spaceIdsOk s.itemIdCounter sp := by
      have := idsOk_getOrCreate (c := s.itemIdCounter) hs slug env.now
      rw [hg] at this
      exact this
    cases henv : env.findUnique with
    | error e => exact ⟨hs, le_refl _, .nil _ _ (le_refl _)⟩
    | ok db =>
      cases db with
      | none => exact ⟨fun a b h => hm0 a b h, le_refl _, .nil _ _ (le_refl _)⟩
      | some rec' =>
        dsimp only
        by_cases hb : rec'.blocked = true
        · rw [if_pos hb]
          exact ⟨hs, le_refl _, .nil _ _ (le_refl _)⟩
        · rw [if_neg hb]
          exact ⟨fun a b h => hm0 a b h, le_refl _, .nil _ _ (le_refl _)⟩
  | createItem slug body env =>
    have hbid : body.id = none := by
      simpa [omitsClientId] using hr
    show stateIdsOk (createItemHandler s slug body env).state ∧
      s.itemIdCounter ≤ (createItemHandler s slug body env).state.itemIdCounter ∧
      MintedChain s.itemIdCounter
        (createItemHandler s slug body env).state.itemIdCounter
        (createdIds (createItemHandler s slug body env).published)
    unfold createItemHandler
    rw [hbid]
    rcases hg : getOrCreateSpace s.spaces slug env.now with ⟨sp0, m0⟩
    have hm0 : ∀ slug' sp, alookup m0 slug' = some sp →
        spaceIdsOk s.itemIdCounter sp := by
      have := idsOk_getOrCreate (c := s.itemIdCounter) hs slug env.now
      rw [hg] at this
      exact this
    have hsp0 : spaceIdsOk s.itemIdCounter sp0 := by
      have := spaceIdsOk_getOrCreate_fst (c := s.itemIdCounter) hs slug env.now
      rw [hg] at this
      exact this
    have hinv : ∀ a b, alookup (aset m0 slug
        { sp0 with
          items := sp0.items ++
            [buildItem (generateItemId (s.itemIdCounter + 1) env.nowMs) body env.now],
          updatedAt := env.now }) a = some b →
        spaceIdsOk (s.itemIdCounter + 1) b := by
      apply idsOk_aset (fun a' b' h' => (hm0 a' b' h').mono (Nat.le_succ _))
      exact spaceIdsOk_append s.itemIdCounter env.nowMs sp0 _ env.now hsp0 rfl
    cases henv : env.findUnique with
    | error e =>
      exact ⟨fun a b h => hinv a b h, Nat.le_succ _, .nil _ _ (Nat.le_succ _)⟩
    | ok db =>
      refine ⟨fun a b h => hinv a b h, Nat.le_succ _, ?_⟩
      exact .cons _ _ (s.itemIdCounter + 1) env.nowMs []
        (Nat.lt_succ_self _) (.nil _ _ (le_refl _))
  | updateItem slug itemId u env =>
    show stateIdsOk (updateItemHandler s slug itemId u env).state ∧
      s.itemIdCounter ≤ (updateItemHandler s slug itemId u env).state.itemIdCounter ∧
      MintedChain s.itemIdCounter
        (updateItemHandler s slug itemId u env).state.itemIdCounter
        (createdIds (updateItemHandler s slug itemId u env).published)
    unfold updateItemHandler
    cases hl : alookup s.spaces slug with
    | none => exact ⟨hs, le_refl _, .nil _ _ (le_refl _)⟩
    | some sp =>
      dsimp only
      cases hrep : replaceFirstItem sp.items itemId u env.now with
      | none => exact ⟨hs, le_refl _, .nil _ _ (le_refl _)⟩
      | some p =>
        obtain ⟨item, items'⟩ := p
        have hids := replaceFirstItem_ids sp.items itemId u env.now item items' hrep
        have hsp' : spaceIdsOk s.itemIdCounter
            { sp with items := items', updatedAt := env.now } :=
          spaceIdsOk_of_ids_eq (hs slug sp hl) hids
        exact ⟨fun a b h =>
            idsOk_aset (fun a' b' h' => hs a' b' h') hsp' a b h,
          le_refl _, .nil _ _ (le_refl _)⟩
  | deleteItem slug itemId env =>
    show stateIdsOk (deleteItemHandler s slug itemId env).state ∧
      s.itemIdCounter ≤ (deleteItemHandler s slug itemId env).state.itemIdCounter ∧
      MintedChain s.itemIdCounter
        (deleteItemHandler s slug itemId env).state.itemIdCounter
        (createdIds (deleteItemHandler s slug itemId env).published)
    unfold deleteItemHandler
    cases hl : alookup s.spaces slug with
    | none => exact ⟨hs, le_refl _, .nil _ _ (le_refl _)⟩
    | some sp =>
      dsimp only
      cases hrem : removeFirstItem sp.items itemId with
      | none => exact ⟨hs, le_refl _, .nil _ _ (le_refl _)⟩
      | some items' =>
        have hsp' : spaceIdsOk s.itemIdCounter
            { sp with items := items', updatedAt := env.now } :=
          spaceIdsOk_of_sublist (hs slug sp hl)
            (removeFirstItem_sublist sp.items itemId items' hrem)
        exact ⟨fun a b h =>
            idsOk_aset (fun a' b' h' => hs a' b' h') hsp' a b h,
          le_refl _, .nil _ _ (le_refl _)⟩
  | resetSpace slug env =>
    show stateIdsOk (resetSpaceHandler s slug env).state ∧
      s.itemIdCounter ≤ (resetSpaceHandler s slug env).state.itemIdCounter ∧
      MintedChain s.itemIdCounter
        (resetSpaceHandler s slug env).state.itemIdCounter
        (createdIds (resetSpaceHandler s slug env).published)
    unfold resetSpaceHandler
    cases hl : alookup s.spaces slug with
    | none =>
      cases henv : env.findUnique with
      | error e => exact ⟨hs, le_refl _, .nil _ _ (le_refl _)⟩
      | ok db => exact ⟨hs, le_refl _, .nil _ _ (le_refl _)⟩
    | some sp =>
      have hsp' : spaceIdsOk s.itemIdCounter
          { sp with items := [], updatedAt := env.now } :=
        spaceIdsOk_of_sublist (hs slug sp hl) (List.nil_sublist _)
      cases henv : env.findUnique with
      | error e =>
        exact ⟨fun a b h =>
            idsOk_aset (fun a' b' h' => hs a' b' h') hsp' a b h,
          le_refl _, .nil _ _ (le_refl _)⟩
      | ok db =>
        exact ⟨fun a b h =>
            idsOk_aset (fun a' b' h' => hs a' b' h') hsp' a b h,
          le_refl _, .nil _ _ (le_refl _)⟩
  | cursorUpsert slug data env =>
    show stateIdsOk (cursorUpsertHandler s slug data env).state ∧
      s.itemIdCounter ≤ (cursorUpsertHandler s slug data env).state.itemIdCounter ∧
      MintedChain s.itemIdCounter
        (cursorUpsertHandler s slug data env).state.itemIdCounter
        (createdIds (cursorUpsertHandler s slug data env).published)
    unfold cursorUpsertHandler
    rcases hg : getOrCreateSpace s.spaces slug env.now with ⟨sp0, m0⟩
    dsimp only
    rcases hu : upsertCursor ((alookup s.cursors slug).getD []) data with ⟨isNew, sc2⟩
    have hm0 : ∀ slug' sp, alookup m0 slug' = some sp →
        spaceIdsOk s.itemIdCounter sp := by
      have := idsOk_getOrCreate (c := s.itemIdCounter) hs slug env.now
      rw [hg] at this
      exact this
    refine ⟨fun a b h => hm0 a b h, le_refl _, ?_⟩
    show MintedChain s.itemIdCounter s.itemIdCounter
      (createdIds [if isNew then SSEEvent.cursorJoin data else SSEEvent.cursorMove data])
    rw [createdIds_cursor_event]
    exact .nil _ _ (le_refl _)
  | cursorRemove slug clientId env =>
    show stateIdsOk (cursorRemoveHandler s slug clientId env).state ∧
      s.itemIdCounter ≤ (cursorRemoveHandler s slug clientId env).state.itemIdCounter ∧
      MintedChain s.itemIdCounter
        (cursorRemoveHandler s slug clientId env).state.itemIdCounter
        (createdIds (cursorRemoveHandler s slug clientId env).published)
    unfold cursorRemoveHandler
    cases hl : alookup s.cursors slug with
    | none => exact ⟨hs, le_refl _, .nil _ _ (le_refl _)⟩
    | some spaceCursors =>
      exact ⟨fun a b h => hs a b h, le_refl _, .nil _ _ (le_refl _)⟩
  | listCursors slug =>
    exact ⟨hs, le_refl _, .nil _ _ (le_refl _)⟩
  | openStream slug env =>
    show stateIdsOk (openStreamHandler s slug env).state ∧
      s.itemIdCounter ≤ (openStreamHandler s slug env).state.itemIdCounter ∧
      MintedChain s.itemIdCounter
        (openStreamHandler s slug env).state.itemIdCounter
        (createdIds (openStreamHandler s slug env).published)
    unfold openStreamHandler
    rcases hg : getOrCreateSpace s.spaces slug env.now with ⟨sp0, m0⟩
    have hm0 : ∀ slug' sp, alookup m0 slug' = some sp →
        spaceIdsOk s.itemIdCounter sp := by
      have := idsOk_getOrCreate (c := s.itemIdCounter) hs slug env.now
      rw [hg] at this
      exact this
    exact ⟨fun a b h => hm0 a b h, le_refl _, .nil _ _ (le_refl _)⟩
  | closeStream slug clientId =>
    exact ⟨hs, le_refl _, .nil _ _ (le_refl _)⟩

theorem createdIds_append (l1 l2 : List SSEEvent) :
    createdIds (l1 ++ l2) = createdIds l1 ++ createdIds l2 := by
  simp [createdIds, List.filterMap_append]

theorem runTrace_cons (s : ServerState) (r : Request) (rest : List Request) :
    runTrace s (r :: rest) =
      ((runTrace (stepRequest s r).state rest).1,
        (stepRequest s r).published ++ (runTrace (stepRequest s r).state rest).2) := by
  rcases h : runTrace (stepRequest s r).state rest with ⟨a, b⟩
  simp [runTrace, h]

/-- Running a whole client-id-free trace preserves the id invariant,
never decreases the counter, and chains every announced created id
strictly between the starting and final counters. -/
theorem runTrace_idsOk (reqs : List Request) :
    ∀ s, (∀ r ∈ reqs, omitsClientId r = true) → stateIdsOk s →
    stateIdsOk (runTrace s reqs).1 ∧
    s.itemIdCounter ≤ (runTrace s reqs).1.itemIdCounter ∧
    MintedChain s.itemIdCounter (runTrace s reqs).1.itemIdCounter
      (createdIds (runTrace s reqs).2) := by
  induction reqs with
  | nil =>
    intro s _ hs
    exact ⟨hs, le_refl _, .nil _ _ (le_refl _)⟩
  | cons r rest ih =>
    intro s hall hs
    obtain ⟨h1, h2, h3⟩ := step_idsOk s r (hall r (List.mem_cons_self r rest)) hs
    obtain ⟨h1', h2', h3'⟩ := ih (stepRequest s r).state
      (fun x hx => hall x (List.mem_cons_of_mem r hx)) h1
    rw [runTrace_cons]
    refine ⟨h1', le_trans h2 h2', ?_⟩
    rw [createdIds_append]
    exact h3.append h3'

/-! ## Claim C2: id uniqueness (corrected: only server-minted ids are
guaranteed fresh) -/

/-- C2 (amended): as long as every create lets the server mint the id
(no client-supplied id in the create body), every reachable state keeps
CanvasItem ids pairwise distinct within each space, and no two creates
of the whole run ever announce the same id — in particular a deleted id
is never re-minted for a later item.  (A create MAY instead carry a
client-chosen id, which the gateway uses verbatim without any
uniqueness check; the accompanying counterexample shows a reachable
state with duplicate ids.) -/
theorem server_minted_ids_distinct (reqs : List Request)
    (hfresh : ∀ r ∈ reqs, omitsClientId r = true) :
    (∀ slug sp, alookup (runTrace initialState reqs).1.spaces slug = some sp →
      sp.items.Pairwise (fun a b => a.id ≠ b.id)) ∧
    (createdIds (runTrace initialState reqs).2).Nodup := by
  have hinit : stateIdsOk initialState := by
    intro slug sp h
    simp [initialState, alookup] at h
  obtain ⟨h1, _, h3⟩ := runTrace_idsOk reqs initialState hfresh hinit
  exact ⟨fun slug sp h => (h1 slug sp h).2, h3.nodup⟩

/-- C2 witness: create, create, delete-the-first, create again — all
server-minted — on the empty server. -/
theorem server_minted_ids_distinct_witness :
    (∀ r ∈ [Request.createItem "abc" exBody okEnv,
        Request.createItem "abc" exBody okEnv,
        Request.deleteItem "abc" "item-1-7" okEnv,
        Request.createItem "abc" exBody okEnv],
      omitsClientId r = true) ∧
    ((∀ slug sp, alookup (runTrace initialState
        [Request.createItem "abc" exBody okEnv,
         Request.createItem "abc" exBody okEnv,
         Request.deleteItem "abc" "item-1-7" okEnv,
         Request.createItem "abc" exBody okEnv]).1.spaces slug = some sp →
      sp.items.Pairwise (fun a b => a.id ≠ b.id)) ∧
    (createdIds (runTrace initialState
        [Request.createItem "abc" exBody okEnv,
         Request.createItem "abc" exBody okEnv,
         Request.deleteItem "abc" "item-1-7" okEnv,
         Request.createItem "abc" exBody okEnv]).2).Nodup) :=
  ⟨by decide,
    server_minted_ids_distinct
      [Request.createItem "abc" exBody okEnv,
       Request.createItem "abc" exBody okEnv,
       Request.deleteItem "abc" "item-1-7" okEnv,
       Request.createItem "abc" exBody okEnv] (by decide)⟩

/-- C2 counterexample to the claim as stated: two creates both carrying
the client-supplied id `"aaa"` reach a state whose space holds two
distinct logical items with the same id — ids are not pairwise
distinct, and the id is reused for a different logical item. -/
theorem client_supplied_duplicate_ids_cex :
    (alookup (runTrace initialState
        [Request.createItem "abc" dupBody okEnv,
         Request.createItem "abc" dupBody okEnv]).1.spaces "abc").map
      (fun sp => sp.items.map CanvasItem.id) = some ["aaa", "aaa"] ∧
    (∃ sp, alookup (runTrace initialState
        [Request.createItem "abc" dupBody okEnv,
         Request.createItem "abc" dupBody okEnv]).1.spaces "abc" = some sp ∧
      ¬ sp.items.Pairwise (fun a b => a.id ≠ b.id)) := by
  refine ⟨by decide, ?_⟩
  refine ⟨_, rfl, ?_⟩
  decide
